import Mathlib

/-!
Verification development for the chat-navigator-extension repository.

The repository is a browser extension that injects a floating navigation
overlay into AI-chat web pages.  Per-platform parser classes
(`ChatGPTParser`, `PerplexityParser`, `ClaudeParser`, `GeminiParser`,
`DeepSeekParser`, `CopilotParser`, `GrokParser`, `MetaParser`) extract
user questions and chat-history entries from the live page, and a shared
`ChatNavigatorUI` controller renders them into two togglable panels.

This file is a shallow embedding of that code.  DOM queries
(`document.querySelectorAll`, `querySelector`) are host-environment
behaviour; their results are modelled as explicit inputs (lists of
candidate elements, optional heading texts, the current location href).
The per-candidate processing of each parser method is transcribed
directly from the JavaScript source.
-/

namespace ChatNav

/-- Model of JavaScript `String.prototype.trim`: remove leading and
trailing whitespace characters. -/
def jsTrim (s : String) : String :=
  ⟨((s.data.dropWhile Char.isWhitespace).reverse.dropWhile Char.isWhitespace).reverse⟩

/-- Contiguous-sublist test on character lists. -/
def infixOf (sub : List Char) : List Char → Bool
  | [] => sub.isEmpty
  | c :: rest => sub.isPrefixOf (c :: rest) || infixOf sub rest

/-- Model of JavaScript `String.prototype.includes`: substring test. -/
def jsIncludes (sub s : String) : Bool :=
  infixOf sub.data s.data

/-- Case-insensitive "starts with" test, modelling a JavaScript regex of
the shape `/^(word)/i` applied to a string: lower-case the string and
check the (already lower-case) pattern is a prefix. -/
def ciStartsWith (pat s : String) : Bool :=
  pat.data.isPrefixOf (s.data.map Char.toLower)

/-- The truncation idiom shared by every parser in the source:
`text.length > cap ? text.substring(0, cap) + '...' : text`.
JavaScript string length / `substring` count code units; here a unit is
modelled as a `Char`. -/
def truncatePreview (cap : Nat) (text : String) : String :=
  if cap < text.length then ⟨text.data.take cap⟩ ++ "..." else text

/-- A Question record `{ id, text }` as produced by `getQuestions`. -/
structure Question where
  id : String
  text : String
deriving DecidableEq, Repr

/-- A Chat record `{ id, title, url }` as produced by `getChats`.
`url` is an `Option` because JavaScript may store `undefined` there
(e.g. ChatGPT items matched by a non-anchor selector have no `href`). -/
structure Chat where
  id : String
  title : String
  url : Option String
deriving DecidableEq, Repr

/-- A candidate message element for `getQuestions`.
`elemId` models the DOM `element.id` attribute (the empty string when
unset, as in JavaScript, where `element.id` is `""` and falsy if no id
is assigned).  `inner` models the `textContent` of the result of the
platform's inner `querySelector` for a text-bearing node (`none` when
that query matches nothing).  `ownText` models the candidate's own
`textContent`, used by the platforms whose code falls back with
`querySelector(...) || message`. -/
structure MsgElem where
  elemId : String
  inner : Option String
  ownText : String
deriving DecidableEq, Repr

/-- A candidate history element for `getChats`.  `titleInner` models the
`textContent` of the platform's title sub-node query (`none` when no
match); `ownText` the element's own `textContent` (the `|| item`
fallback); `href` the navigation target, `none` when the element has no
`href` (JavaScript `undefined`). -/
structure ChatElem where
  titleInner : Option String
  ownText : String
  href : Option String
deriving DecidableEq, Repr

/-- Model of the JavaScript regex idiom used to derive chat ids from
hrefs, e.g. `href.match(/\/c\/([^\/]+)/)`: scan the string left to
right; at the first position where one of the marker strings (e.g.
`"/c/"`) occurs and is followed by at least one character not in
`stops`, return the maximal run of non-stop characters after the
marker.  Markers are tried in regex-alternation preference order at
each position. -/
def findSeg (markers : List (List Char)) (stops : List Char) : List Char → Option (List Char)
  | [] => none
  | c :: rest =>
    match markers.findSome? (fun mk =>
      if mk.isPrefixOf (c :: rest) then
        let seg := ((c :: rest).drop mk.length).takeWhile (fun ch => !stops.contains ch)
        if seg.isEmpty then none else some seg
      else none) with
    | some seg => some seg
    | none => findSeg markers stops rest

/-- String-level wrapper for `findSeg`. -/
def matchSeg (markers : List String) (stops : List Char) (href : String) : Option String :=
  (findSeg (markers.map String.data) stops href.data).map fun l => ⟨l⟩

/-- Shared plumbing for `getQuestions`: run the per-candidate step (which
returns the optionally produced Question together with the possibly
id-stamped element) over the candidate list with its `forEach` index,
collecting the accepted questions in order and the updated elements. -/
def runSteps (step : Nat → MsgElem → Option Question × MsgElem)
    (msgs : List MsgElem) : List Question × List MsgElem :=
  let steps := msgs.enum.map fun p => step p.1 p.2
  (steps.filterMap Prod.fst, steps.map Prod.snd)

/-! ## ChatGPTParser -/

/-- Per-candidate body of `ChatGPTParser.getQuestions`'s `forEach`:
requires an inner text element (`.prose, [class*="markdown"], ...`);
accepts when its trimmed text is non-empty; reuses `message.id` when
set, otherwise synthesizes `chatgpt-user-{index}` and stamps it;
truncates the text at 100 with `'...'`. -/
def chatgptStep (index : Nat) (message : MsgElem) : Option Question × MsgElem :=
  match message.inner with
  | none => (none, message)
  | some raw =>
    if jsTrim raw ≠ "" then
      let text := jsTrim raw
      let messageId := if message.elemId = "" then "chatgpt-user-" ++ toString index
                       else message.elemId
      let message' := if message.elemId = "" then { message with elemId := messageId }
                      else message
      (some { id := messageId, text := truncatePreview 100 text }, message')
    else (none, message)

/-- `ChatGPTParser.getQuestions`, over the queried candidate list. -/
def ChatGPTParser.getQuestions (userMessages : List MsgElem) :
    List Question × List MsgElem :=
  runSteps chatgptStep userMessages

/-- Per-candidate body of `ChatGPTParser.getChats`'s `forEach`: resolve a
title node falling back to the item itself, accept when trimmed text is
non-empty, id `chat-{index}` unless the href matches `/\/c\/([^\/]+)/`,
title stored untruncated, url the item's href. -/
def chatgptChatStep (index : Nat) (item : ChatElem) : Option Chat :=
  let raw := item.titleInner.getD item.ownText
  if jsTrim raw ≠ "" then
    let title := jsTrim raw
    let chatId :=
      match item.href with
      | some h =>
        match matchSeg ["/c/"] ['/'] h with
        | some seg => "chat-" ++ seg
        | none => "chat-" ++ toString index
      | none => "chat-" ++ toString index
    some { id := chatId, title := title, url := item.href }
  else none

/-- The history scan of `ChatGPTParser.getChats` (the first `forEach`). -/
def chatgptHistoryChats (chatItems : List ChatElem) : List Chat :=
  chatItems.enum.filterMap fun p => chatgptChatStep p.1 p.2

/-- `ChatGPTParser.getChats`: history scan, then the zero-entry fallback
that synthesizes a `current-chat` entry from the page heading
(`h1, .text-xl, ...`) whenever the heading's trimmed text is non-empty,
with `url: window.location.href`. -/
def ChatGPTParser.getChats (chatItems : List ChatElem) (headingText : Option String)
    (locationHref : String) : List Chat :=
  let chats := chatgptHistoryChats chatItems
  if chats.isEmpty then
    match headingText with
    | some t =>
      if jsTrim t ≠ "" then
        [{ id := "current-chat", title := jsTrim t, url := some locationHref }]
      else []
    | none => []
  else chats

/-! ## PerplexityParser -/

/-- Per-candidate body of `PerplexityParser.getQuestions`'s `forEach`:
resolves `.text, .content, .query-text` falling back to the message
itself, rejects empty trimmed text and texts shorter than 10, reuses a
stamped id or synthesizes `perplexity-query-{index}` and stamps it. -/
def perplexityStep (index : Nat) (message : MsgElem) : Option Question × MsgElem :=
  let raw := message.inner.getD message.ownText
  if jsTrim raw ≠ "" then
    let text := jsTrim raw
    if text.length < 10 then (none, message)
    else
      let messageId := if message.elemId = "" then "perplexity-query-" ++ toString index
                       else message.elemId
      let message' := if message.elemId = "" then { message with elemId := messageId }
                      else message
      (some { id := messageId, text := truncatePreview 100 text }, message')
  else (none, message)

/-- `PerplexityParser.getQuestions`, over the unioned candidate list. -/
def PerplexityParser.getQuestions (userMessages : List MsgElem) :
    List Question × List MsgElem :=
  runSteps perplexityStep userMessages

/-- Per-candidate body of `PerplexityParser.getChats`'s `forEach`: title
sub-node falling back to the item, trimmed non-empty, id
`perplexity-thread-{index}` unless the href matches
`/\/(search|thread)\/([^\/\?]+)/`, title truncated at 50. -/
def perplexityChatStep (index : Nat) (item : ChatElem) : Option Chat :=
  let raw := item.titleInner.getD item.ownText
  if jsTrim raw ≠ "" then
    let title := jsTrim raw
    let chatId :=
      match item.href with
      | some h =>
        match matchSeg ["/search/", "/thread/"] ['/', '?'] h with
        | some seg => "perplexity-thread-" ++ seg
        | none => "perplexity-thread-" ++ toString index
      | none => "perplexity-thread-" ++ toString index
    some { id := chatId, title := truncatePreview 50 title, url := item.href }
  else none

/-- The history scan of `PerplexityParser.getChats`. -/
def perplexityHistoryChats (chatItems : List ChatElem) : List Chat :=
  chatItems.enum.filterMap fun p => perplexityChatStep p.1 p.2

/-- `PerplexityParser.getChats`: history scan, then the zero-entry
fallback that reads the current search input's `value` (not a heading):
`if (currentQuery && currentQuery.value)` pushes a
`perplexity-current-search` entry with the untrimmed, untruncated value
and `url: window.location.href`.  `searchValue` models the `value` of
the matched input element, `none` when no input element matched. -/
def PerplexityParser.getChats (chatItems : List ChatElem) (searchValue : Option String)
    (locationHref : String) : List Chat :=
  let chats := perplexityHistoryChats chatItems
  if chats.isEmpty then
    match searchValue with
    | some v =>
      if v ≠ "" then
        [{ id := "perplexity-current-search", title := v, url := some locationHref }]
      else []
    | none => []
  else chats

/-! ## ClaudeParser -/

/-- Per-candidate body of `ClaudeParser.getQuestions`'s `forEach`:
resolves `.prose, [class*="markdown"], .whitespace-pre-wrap` falling back
to the message itself, rejects empty trimmed text, texts shorter than
10, and texts matching `/^(Claude|Assistant|AI):/i`; reuses a stamped id
or synthesizes `claude-user-{index}` and stamps it. -/
def claudeStep (index : Nat) (message : MsgElem) : Option Question × MsgElem :=
  let raw := message.inner.getD message.ownText
  if jsTrim raw ≠ "" then
    let text := jsTrim raw
    if text.length < 10 ∨
        (ciStartsWith "claude:" text ∨ ciStartsWith "assistant:" text ∨
         ciStartsWith "ai:" text) then (none, message)
    else
      let messageId := if message.elemId = "" then "claude-user-" ++ toString index
                       else message.elemId
      let message' := if message.elemId = "" then { message with elemId := messageId }
                      else message
      (some { id := messageId, text := truncatePreview 100 text }, message')
  else (none, message)

/-- `ClaudeParser.getQuestions`, over the unioned candidate list. -/
def ClaudeParser.getQuestions (userMessages : List MsgElem) :
    List Question × List MsgElem :=
  runSteps claudeStep userMessages

/-- Per-candidate body of `ClaudeParser.getChats`'s `forEach`: title
sub-node falling back to the item, trimmed non-empty, id
`claude-chat-{index}` unless the href matches
`/\/chat\/([^\/\?]+)/`, title truncated at 50. -/
def claudeChatStep (index : Nat) (item : ChatElem) : Option Chat :=
  let raw := item.titleInner.getD item.ownText
  if jsTrim raw ≠ "" then
    let title := jsTrim raw
    let chatId :=
      match item.href with
      | some h =>
        match matchSeg ["/chat/"] ['/', '?'] h with
        | some seg => "claude-chat-" ++ seg
        | none => "claude-chat-" ++ toString index
      | none => "claude-chat-" ++ toString index
    some { id := chatId, title := truncatePreview 50 title, url := item.href }
  else none

/-- The history scan of `ClaudeParser.getChats`. -/
def claudeHistoryChats (chatItems : List ChatElem) : List Chat :=
  chatItems.enum.filterMap fun p => claudeChatStep p.1 p.2

/-- The `for (const selector of titleSelectors)` fallback loop of
`ClaudeParser.getChats`: each entry of `headingTexts` models the result
of one `document.querySelector(selector)` call (`none` = no match).
The first heading whose trimmed text is non-empty, differs from
`'Claude'` and does not match `/^(New|Untitled)/i` yields a single
`claude-current-chat` entry (title truncated at 50,
`url: window.location.href`) and stops the loop; otherwise the loop
continues, and yields nothing at the end. -/
def claudeFallbackChats (locationHref : String) : List (Option String) → List Chat
  | [] => []
  | none :: rest => claudeFallbackChats locationHref rest
  | some raw :: rest =>
    if jsTrim raw ≠ "" then
      let title := jsTrim raw
      if title ≠ "Claude" ∧ ¬(ciStartsWith "new" title ∨ ciStartsWith "untitled" title) then
        [{ id := "claude-current-chat", title := truncatePreview 50 title,
           url := some locationHref }]
      else claudeFallbackChats locationHref rest
    else claudeFallbackChats locationHref rest

/-- `ClaudeParser.getChats`: history scan, then the heading-loop
fallback when it yields zero entries. -/
def ClaudeParser.getChats (chatItems : List ChatElem) (headingTexts : List (Option String))
    (locationHref : String) : List Chat :=
  let chats := claudeHistoryChats chatItems
  if chats.isEmpty then claudeFallbackChats locationHref headingTexts
  else chats

/-! ## GeminiParser -/

/-- Per-candidate body of `GeminiParser.getQuestions`'s `forEach`:
resolve `.markdown, .prose, .message-content, .text-content` falling
back to the message, reject empty trimmed text, length < 10, and
`/^(Gemini|Bard|AI):/i`; reuse a stamped id or synthesize
`gemini-user-{index}` and stamp it. -/
def geminiStep (index : Nat) (message : MsgElem) : Option Question × MsgElem :=
  let raw := message.inner.getD message.ownText
  if jsTrim raw ≠ "" then
    let text := jsTrim raw
    if text.length < 10 ∨
        (ciStartsWith "gemini:" text ∨ ciStartsWith "bard:" text ∨
         ciStartsWith "ai:" text) then (none, message)
    else
      let messageId := if message.elemId = "" then "gemini-user-" ++ toString index
                       else message.elemId
      let message' := if message.elemId = "" then { message with elemId := messageId }
                      else message
      (some { id := messageId, text := truncatePreview 100 text }, message')
  else (none, message)

/-- `GeminiParser.getQuestions`, over the unioned candidate list. -/
def GeminiParser.getQuestions (userMessages : List MsgElem) :
    List Question × List MsgElem :=
  runSteps geminiStep userMessages

/-- Per-candidate body of `GeminiParser.getChats`'s `forEach`: id
`gemini-chat-{index}` unless the href matches
`/\/(chat|app)\/([^\/\?]+)/`, title truncated at 50. -/
def geminiChatStep (index : Nat) (item : ChatElem) : Option Chat :=
  let raw := item.titleInner.getD item.ownText
  if jsTrim raw ≠ "" then
    let title := jsTrim raw
    let chatId :=
      match item.href with
      | some h =>
        match matchSeg ["/chat/", "/app/"] ['/', '?'] h with
        | some seg => "gemini-chat-" ++ seg
        | none => "gemini-chat-" ++ toString index
      | none => "gemini-chat-" ++ toString index
    some { id := chatId, title := truncatePreview 50 title, url := item.href }
  else none

/-- The history scan of `GeminiParser.getChats`. -/
def geminiHistoryChats (chatItems : List ChatElem) : List Chat :=
  chatItems.enum.filterMap fun p => geminiChatStep p.1 p.2

/-- `GeminiParser.getChats`: history scan, then the zero-entry fallback:
`if (titleElement && titleElement.textContent.trim() &&
!titleElement.textContent.includes('Gemini'))` pushes a
`gemini-current-chat` entry with the trimmed, untruncated heading text
and `url: window.location.href`.  Note the brand check is a substring
test on the untrimmed text. -/
def GeminiParser.getChats (chatItems : List ChatElem) (headingText : Option String)
    (locationHref : String) : List Chat :=
  let chats := geminiHistoryChats chatItems
  if chats.isEmpty then
    match headingText with
    | some t =>
      if jsTrim t ≠ "" ∧ jsIncludes "Gemini" t = false then
        [{ id := "gemini-current-chat", title := jsTrim t, url := some locationHref }]
      else []
    | none => []
  else chats

/-! ## DeepSeekParser -/

/-- Per-candidate body of `DeepSeekParser.getQuestions`'s `forEach`:
requires an inner `.content, .message-text` element, accepts when its
trimmed text is non-empty, always synthesizes `deepseek-user-{index}`
and assigns it to `message.id` (overwriting any existing id), truncates
the text at 100. -/
def deepseekStep (index : Nat) (message : MsgElem) : Option Question × MsgElem :=
  match message.inner with
  | none => (none, message)
  | some raw =>
    if jsTrim raw ≠ "" then
      let text := jsTrim raw
      let messageId := "deepseek-user-" ++ toString index
      (some { id := messageId, text := truncatePreview 100 text },
       { message with elemId := messageId })
    else (none, message)

/-- `DeepSeekParser.getQuestions`, over the queried candidate list. -/
def DeepSeekParser.getQuestions (userMessages : List MsgElem) :
    List Question × List MsgElem :=
  runSteps deepseekStep userMessages

/-- Per-candidate body of `DeepSeekParser.getChats`'s `forEach`:
requires an inner `.title, .chat-title` element, accepts when its
trimmed text is non-empty, id `deepseek-chat-{index}`, title stored
untruncated, url the item's href. -/
def deepseekChatStep (index : Nat) (item : ChatElem) : Option Chat :=
  match item.titleInner with
  | none => none
  | some raw =>
    if jsTrim raw ≠ "" then
      some { id := "deepseek-chat-" ++ toString index, title := jsTrim raw,
             url := item.href }
    else none

/-- `DeepSeekParser.getChats`: history scan only — this parser has no
zero-entry fallback and returns the empty list when nothing matched. -/
def DeepSeekParser.getChats (chatItems : List ChatElem) : List Chat :=
  chatItems.enum.filterMap fun p => deepseekChatStep p.1 p.2

/-! ## CopilotParser -/

/-- Per-candidate body of `CopilotParser.getQuestions`'s `forEach`:
resolve `.ac-textRun, .message-content, .text-content, p, div` falling
back to the message, reject empty trimmed text, length < 10, and
`/^(Copilot|Bing|AI):/i`; reuse a stamped id or synthesize
`copilot-user-{index}` and stamp it. -/
def copilotStep (index : Nat) (message : MsgElem) : Option Question × MsgElem :=
  let raw := message.inner.getD message.ownText
  if jsTrim raw ≠ "" then
    let text := jsTrim raw
    if text.length < 10 ∨
        (ciStartsWith "copilot:" text ∨ ciStartsWith "bing:" text ∨
         ciStartsWith "ai:" text) then (none, message)
    else
      let messageId := if message.elemId = "" then "copilot-user-" ++ toString index
                       else message.elemId
      let message' := if message.elemId = "" then { message with elemId := messageId }
                      else message
      (some { id := messageId, text := truncatePreview 100 text }, message')
  else (none, message)

/-- `CopilotParser.getQuestions`, over the unioned candidate list. -/
def CopilotParser.getQuestions (userMessages : List MsgElem) :
    List Question × List MsgElem :=
  runSteps copilotStep userMessages

/-- Per-candidate body of `CopilotParser.getChats`'s `forEach`: skips
chrome labels matching `/^(Home|Settings|Help|About)/i`; id
`copilot-chat-{index}` unless the href matches
`/\/(chat|conversations?)\/([^\/\?]+)/`, title truncated at 50. -/
def copilotChatStep (index : Nat) (item : ChatElem) : Option Chat :=
  let raw := item.titleInner.getD item.ownText
  if jsTrim raw ≠ "" then
    let title := jsTrim raw
    if ciStartsWith "home" title ∨ ciStartsWith "settings" title ∨
        ciStartsWith "help" title ∨ ciStartsWith "about" title then none
    else
      let chatId :=
        match item.href with
        | some h =>
          match matchSeg ["/chat/", "/conversations/", "/conversation/"] ['/', '?'] h with
          | some seg => "copilot-chat-" ++ seg
          | none => "copilot-chat-" ++ toString index
        | none => "copilot-chat-" ++ toString index
      some { id := chatId, title := truncatePreview 50 title, url := item.href }
  else none

/-- The history scan of `CopilotParser.getChats`. -/
def copilotHistoryChats (chatItems : List ChatElem) : List Chat :=
  chatItems.enum.filterMap fun p => copilotChatStep p.1 p.2

/-- `CopilotParser.getChats`: history scan, then the zero-entry
fallback requiring the untrimmed heading text to contain neither
`'Copilot'` nor `'Bing'`; title stored trimmed, untruncated, with
`url: window.location.href`. -/
def CopilotParser.getChats (chatItems : List ChatElem) (headingText : Option String)
    (locationHref : String) : List Chat :=
  let chats := copilotHistoryChats chatItems
  if chats.isEmpty then
    match headingText with
    | some t =>
      if jsTrim t ≠ "" ∧ jsIncludes "Copilot" t = false ∧ jsIncludes "Bing" t = false then
        [{ id := "copilot-current-chat", title := jsTrim t, url := some locationHref }]
      else []
    | none => []
  else chats

/-! ## GrokParser -/

/-- Per-candidate body of `GrokParser.getQuestions`'s `forEach`:
resolve the inner text node falling back to the message, reject empty
trimmed text, length < 10, and `/^(Grok|Bot|AI):/i`; reuse a stamped id
or synthesize `grok-user-{index}` and stamp it. -/
def grokStep (index : Nat) (message : MsgElem) : Option Question × MsgElem :=
  let raw := message.inner.getD message.ownText
  if jsTrim raw ≠ "" then
    let text := jsTrim raw
    if text.length < 10 ∨
        (ciStartsWith "grok:" text ∨ ciStartsWith "bot:" text ∨
         ciStartsWith "ai:" text) then (none, message)
    else
      let messageId := if message.elemId = "" then "grok-user-" ++ toString index
                       else message.elemId
      let message' := if message.elemId = "" then { message with elemId := messageId }
                      else message
      (some { id := messageId, text := truncatePreview 100 text }, message')
  else (none, message)

/-- `GrokParser.getQuestions`, over the unioned candidate list. -/
def GrokParser.getQuestions (userMessages : List MsgElem) :
    List Question × List MsgElem :=
  runSteps grokStep userMessages

/-- Per-candidate body of `GrokParser.getChats`'s `forEach`: id
`grok-chat-{index}` unless the href matches
`/\/(chat|conversation)\/([^\/\?]+)/`, title truncated at 50. -/
def grokChatStep (index : Nat) (item : ChatElem) : Option Chat :=
  let raw := item.titleInner.getD item.ownText
  if jsTrim raw ≠ "" then
    let title := jsTrim raw
    let chatId :=
      match item.href with
      | some h =>
        match matchSeg ["/chat/", "/conversation/"] ['/', '?'] h with
        | some seg => "grok-chat-" ++ seg
        | none => "grok-chat-" ++ toString index
      | none => "grok-chat-" ++ toString index
    some { id := chatId, title := truncatePreview 50 title, url := item.href }
  else none

/-- The history scan of `GrokParser.getChats`. -/
def grokHistoryChats (chatItems : List ChatElem) : List Chat :=
  chatItems.enum.filterMap fun p => grokChatStep p.1 p.2

/-- `GrokParser.getChats`: history scan, then the zero-entry fallback
that accepts any heading with non-empty trimmed text (no brand-name
check), stored trimmed, untruncated, with `url: window.location.href`. -/
def GrokParser.getChats (chatItems : List ChatElem) (headingText : Option String)
    (locationHref : String) : List Chat :=
  let chats := grokHistoryChats chatItems
  if chats.isEmpty then
    match headingText with
    | some t =>
      if jsTrim t ≠ "" then
        [{ id := "grok-current-chat", title := jsTrim t, url := some locationHref }]
      else []
    | none => []
  else chats

/-! ## MetaParser -/

/-- Per-candidate body of `MetaParser.getQuestions`'s `forEach`:
resolve `.message-text, .content, .text, p, div` falling back to the
message, reject empty trimmed text, length < 10, and
`/^(Meta|AI|Bot):/i`; reuse a stamped id or synthesize
`meta-user-{index}` and stamp it. -/
def metaStep (index : Nat) (message : MsgElem) : Option Question × MsgElem :=
  let raw := message.inner.getD message.ownText
  if jsTrim raw ≠ "" then
    let text := jsTrim raw
    if text.length < 10 ∨
        (ciStartsWith "meta:" text ∨ ciStartsWith "ai:" text ∨
         ciStartsWith "bot:" text) then (none, message)
    else
      let messageId := if message.elemId = "" then "meta-user-" ++ toString index
                       else message.elemId
      let message' := if message.elemId = "" then { message with elemId := messageId }
                      else message
      (some { id := messageId, text := truncatePreview 100 text }, message')
  else (none, message)

/-- `MetaParser.getQuestions`, over the unioned candidate list. -/
def MetaParser.getQuestions (userMessages : List MsgElem) :
    List Question × List MsgElem :=
  runSteps metaStep userMessages

/-- Per-candidate body of `MetaParser.getChats`'s `forEach`: id
`meta-chat-{index}` unless the href matches
`/\/(chat|conversation)\/([^\/\?]+)/`, title truncated at 50. -/
def metaChatStep (index : Nat) (item : ChatElem) : Option Chat :=
  let raw := item.titleInner.getD item.ownText
  if jsTrim raw ≠ "" then
    let title := jsTrim raw
    let chatId :=
      match item.href with
      | some h =>
        match matchSeg ["/chat/", "/conversation/"] ['/', '?'] h with
        | some seg => "meta-chat-" ++ seg
        | none => "meta-chat-" ++ toString index
      | none => "meta-chat-" ++ toString index
    some { id := chatId, title := truncatePreview 50 title, url := item.href }
  else none

/-- The history scan of `MetaParser.getChats`. -/
def metaHistoryChats (chatItems : List ChatElem) : List Chat :=
  chatItems.enum.filterMap fun p => metaChatStep p.1 p.2

/-- `MetaParser.getChats`: history scan, then the zero-entry fallback
requiring the untrimmed heading text not to contain `'Meta AI'`; title
stored trimmed, untruncated, with `url: window.location.href`. -/
def MetaParser.getChats (chatItems : List ChatElem) (headingText : Option String)
    (locationHref : String) : List Chat :=
  let chats := metaHistoryChats chatItems
  if chats.isEmpty then
    match headingText with
    | some t =>
      if jsTrim t ≠ "" ∧ jsIncludes "Meta AI" t = false then
        [{ id := "meta-current-chat", title := jsTrim t, url := some locationHref }]
      else []
    | none => []
  else chats

/-! ## ChatNavigatorUI: HTML escaping and row rendering -/

/-- The non-breaking-space character, serialized by browsers as
the `nbsp` character reference. -/
def nbspChar : Char := Char.ofNat 160

/-- The serialization of one character of an HTML text node: browsers
replace the ampersand, the angle brackets and U+00A0 with their named
character references and leave every other character (including
quotes) unchanged. -/
def escapeHtmlChunk (c : Char) : List Char :=
  if c = '&' then "&amp;".data
  else if c = '<' then "&lt;".data
  else if c = '>' then "&gt;".data
  else if c = nbspChar then "&nbsp;".data
  else [c]

/-- `ChatNavigatorUI.escapeHtml`: the source assigns the string to a
detached div's `textContent` and reads back `innerHTML`, i.e. the text
serialized one character at a time via `escapeHtmlChunk`. -/
def escapeHtml (text : String) : String :=
  ⟨text.data.flatMap escapeHtmlChunk⟩

/-- The browser-side interpretation of escaped text content: decode the
four character references `escapeHtml` can emit, copy everything else
verbatim. -/
def unescapeHtml : List Char → List Char
  | [] => []
  | '&' :: 'a' :: 'm' :: 'p' :: ';' :: rest => '&' :: unescapeHtml rest
  | '&' :: 'l' :: 't' :: ';' :: rest => '<' :: unescapeHtml rest
  | '&' :: 'g' :: 't' :: ';' :: rest => '>' :: unescapeHtml rest
  | '&' :: 'n' :: 'b' :: 's' :: 'p' :: ';' :: rest => nbspChar :: unescapeHtml rest
  | c :: rest => c :: unescapeHtml rest

/-- One rendered row of the questions panel, from the template literal
in `ChatNavigatorUI.renderQuestions`: the item's `id` is interpolated
verbatim into the `data-element-id` attribute, the item's `text` goes
through `escapeHtml`. -/
def questionRow (question : Question) : String :=
  "\n      <div class=\"nav-item\" data-element-id=\"" ++ question.id ++
    "\">\n        <div class=\"nav-item-text\">" ++ escapeHtml question.text ++
    "</div>\n      </div>\n    "

/-- One rendered row of the chats panel, from the template literal in
`ChatNavigatorUI.renderChats`. -/
def chatRow (chat : Chat) : String :=
  "\n      <div class=\"nav-item\" data-element-id=\"" ++ chat.id ++
    "\">\n        <div class=\"nav-item-text\">" ++ escapeHtml chat.title ++
    "</div>\n      </div>\n    "

/-- The placeholder row rendered for an empty questions list. -/
def emptyQuestionsMarkup : String := "<div class=\"empty-state\">No questions found</div>"

/-- The placeholder row rendered for an empty chats list. -/
def emptyChatsMarkup : String := "<div class=\"empty-state\">No chats found</div>"

/-- The `panel.innerHTML` string produced by
`ChatNavigatorUI.renderQuestions`: the placeholder when the list is
empty, otherwise `questions.map(...).join('')`. -/
def renderQuestionsMarkup (questions : List Question) : String :=
  if questions.isEmpty then emptyQuestionsMarkup
  else String.join (questions.map questionRow)

/-- The `panel.innerHTML` string produced by
`ChatNavigatorUI.renderChats`. -/
def renderChatsMarkup (chats : List Chat) : String :=
  if chats.isEmpty then emptyChatsMarkup
  else String.join (chats.map chatRow)

/-! ## ChatNavigatorUI: panel state machine -/

/-- The two panel kinds. -/
inductive PanelType
  | questions
  | chats
deriving DecidableEq, Repr

/-- The panel-related state of a `ChatNavigatorUI` instance:
`activePanel` models `this.activePanel` (`null` = `none`); the four
booleans model the presence of the `show` class on each panel element
and of the `active` class on each toggle button. -/
structure PanelState where
  activePanel : Option PanelType
  questionsShow : Bool
  chatsShow : Bool
  questionsBtnActive : Bool
  chatsBtnActive : Bool
deriving DecidableEq, Repr

/-- The state after construction: `activePanel = null`, no `show` or
`active` classes anywhere. -/
def initPanelState : PanelState :=
  { activePanel := none, questionsShow := false, chatsShow := false,
    questionsBtnActive := false, chatsBtnActive := false }

/-- `ChatNavigatorUI.closeAllPanels`: reset `activePanel` to `null` and
remove the `active` and `show` classes from every button and panel. -/
def closeAllPanels (_s : PanelState) : PanelState := initPanelState

/-- `ChatNavigatorUI.togglePanel`: if the requested panel is the active
one, close everything; otherwise close everything and then open the
requested panel (add `active` to its button and `show` to its panel). -/
def togglePanel (type : PanelType) (s : PanelState) : PanelState :=
  if s.activePanel = some type then closeAllPanels s
  else
    let s' := closeAllPanels s
    match type with
    | .questions =>
      { s' with
        activePanel := some PanelType.questions,
        questionsShow := true, questionsBtnActive := true }
    | .chats =>
      { s' with
        activePanel := some PanelType.chats,
        chatsShow := true, chatsBtnActive := true }

/-- The user interactions wired by `ChatNavigatorUI.bindEvents` that
change panel state: a toggle-button click, a click outside the
container, and the Escape key (the latter two both invoke
`closeAllPanels` unconditionally). -/
inductive UIEvent
  | toggle (type : PanelType)
  | outsideClick
  | escapeKey
deriving DecidableEq, Repr

/-- One event-handler invocation. -/
def stepUI (s : PanelState) : UIEvent → PanelState
  | .toggle type => togglePanel type s
  | .outsideClick => closeAllPanels s
  | .escapeKey => closeAllPanels s

/-- The panel state after a finite sequence of interactions starting
from the freshly constructed UI. -/
def runUI (events : List UIEvent) : PanelState :=
  events.foldl stepUI initPanelState

/-- How many panels carry the `show` class. -/
def openCount (s : PanelState) : Nat :=
  (if s.questionsShow then 1 else 0) + (if s.chatsShow then 1 else 0)

/-- The `show` flag of the given panel kind. -/
def showOf (type : PanelType) (s : PanelState) : Bool :=
  match type with
  | .questions => s.questionsShow
  | .chats => s.chatsShow

/-! ## ChatNavigatorUI: selection (scroll-to) path -/

/-- Host-environment effects requested by `scrollToElement`; nodes are
identified by abstract handles. -/
inductive UIEffect
  | scrollIntoView (node : Nat)
  | highlight (node : Nat)
deriving DecidableEq, Repr

/-- The document as seen by the selection path: the id index models
`document.getElementById`, the data-id index models
`document.querySelector('[data-id="..."]')`.  Both are association
lists from attribute value to node handle. -/
structure Doc where
  idIndex : List (String × Nat)
  dataIdIndex : List (String × Nat)
deriving Repr

/-- `document.getElementById(elementId)`. -/
def getElementById (d : Doc) (elementId : String) : Option Nat :=
  (d.idIndex.find? fun p => p.1 = elementId).map Prod.snd

/-- `document.querySelector('[data-id="elementId"]')`. -/
def queryByDataId (d : Doc) (elementId : String) : Option Nat :=
  (d.dataIdIndex.find? fun p => p.1 = elementId).map Prod.snd

/-- Invoke a method on a possibly-null element reference: JavaScript
throws a TypeError when the reference is null. -/
def jsCall (element : Option Nat) (mk : Nat → UIEffect) : Except String UIEffect :=
  match element with
  | some n => .ok (mk n)
  | none => .error "TypeError: element is null"

/-- `ChatNavigatorUI.scrollToElement`: resolve
`document.getElementById(elementId) ||
document.querySelector('[data-id="..."]')`; when the result is truthy,
scroll it into view and apply the transient highlight, otherwise do
nothing.  The `Except` layer records whether a JavaScript exception
escapes. -/
def scrollToElement (d : Doc) (elementId : String) : Except String (List UIEffect) :=
  let element := (getElementById d elementId).orElse fun _ => queryByDataId d elementId
  if element.isSome then do
    let e1 ← jsCall element .scrollIntoView
    let e2 ← jsCall element .highlight
    .ok [e1, e2]
  else .ok []

/-- The row click handler installed by `renderQuestions` /
`renderChats`: `scrollToElement(elementId)` then `closeAllPanels()`. -/
def rowClick (d : Doc) (s : PanelState) (elementId : String) :
    Except String (List UIEffect × PanelState) := do
  let effects ← scrollToElement d elementId
  .ok (effects, closeAllPanels s)

/-! ## ChatNavigatorUI: debounced refresh -/

/-- The debounce quiet period of `startObserver`, in milliseconds. -/
def updateDelayMs : Nat := 500

/-- Semantics of the `MutationObserver` callback in
`ChatNavigatorUI.startObserver`: each structural-change notification at
time `t` executes `clearTimeout(this.updateTimeout)` followed by
`this.updateTimeout = setTimeout(update, quiet)`, so the timer armed at
`t` fires at `t + quiet` unless a later notification arrives strictly
before that moment.  Given the (non-decreasing) notification times,
this returns the times at which the refresh callback — one
`updateContent` call, i.e. one joint `getQuestions`/`getChats`
re-extraction followed by a re-render — actually fires. -/
def debounceFires (quiet : Nat) : List Nat → List Nat
  | [] => []
  | [t] => [t + quiet]
  | t₁ :: t₂ :: rest =>
    (if t₂ < t₁ + quiet then [] else [t₁ + quiet]) ++ debounceFires quiet (t₂ :: rest)

/-! ## Helper lemmas: truncation -/

lemma truncatePreview_of_le {cap : Nat} {s : String} (h : s.length ≤ cap) :
    truncatePreview cap s = s := by
  unfold truncatePreview
  rw [if_neg]
  omega

lemma truncatePreview_of_gt {cap : Nat} {s : String} (h : cap < s.length) :
    truncatePreview cap s = ⟨s.data.take cap⟩ ++ "..." := by
  unfold truncatePreview
  rw [if_pos h]

lemma length_mk_data (l : List Char) : (String.mk l).length = l.length := rfl

lemma string_length_data (s : String) : s.length = s.data.length := rfl

lemma string_length_append (a b : String) : (a ++ b).length = a.length + b.length := by
  rw [string_length_data, String.data_append, List.length_append]
  rfl

lemma truncatePreview_length_le (cap : Nat) (s : String) :
    (truncatePreview cap s).length ≤ cap + 3 := by
  by_cases h : cap < s.length
  · rw [truncatePreview_of_gt h, string_length_append, length_mk_data, List.length_take]
    have h3 : ("..." : String).length = 3 := rfl
    omega
  · rw [truncatePreview_of_le (by omega)]
    omega

lemma truncatePreview_cases (cap : Nat) (s : String) :
    (truncatePreview cap s).length ≤ cap + 3 ∧
    (s.length ≤ cap → truncatePreview cap s = s) ∧
    (cap < s.length → ∃ t : String, truncatePreview cap s = t ++ "..." ∧
      t.data.isPrefixOf s.data = true ∧ t.length = cap) := by
  refine ⟨truncatePreview_length_le cap s, fun h => truncatePreview_of_le h, fun h => ?_⟩
  refine ⟨⟨s.data.take cap⟩, truncatePreview_of_gt h, ?_, ?_⟩
  · rw [List.isPrefixOf_iff_prefix]
    exact List.take_prefix cap s.data
  · rw [length_mk_data, List.length_take]
    have := string_length_data s
    omega

/-! ## Helper lemmas: escaping -/

lemma escapeHtml_data (s : String) :
    (escapeHtml s).data = s.data.flatMap escapeHtmlChunk := rfl

lemma escapeHtmlChunk_no_angle (a : Char) : ∀ c ∈ escapeHtmlChunk a, c ≠ '<' ∧ c ≠ '>' := by
  intro c hc
  unfold escapeHtmlChunk at hc
  split_ifs at hc with h1 h2 h3 h4
  · have h : c ∈ ['&', 'a', 'm', 'p', ';'] := hc
    simp only [List.mem_cons, List.not_mem_nil, or_false] at h
    rcases h with rfl | rfl | rfl | rfl | rfl <;> exact ⟨by decide, by decide⟩
  · have h : c ∈ ['&', 'l', 't', ';'] := hc
    simp only [List.mem_cons, List.not_mem_nil, or_false] at h
    rcases h with rfl | rfl | rfl | rfl <;> exact ⟨by decide, by decide⟩
  · have h : c ∈ ['&', 'g', 't', ';'] := hc
    simp only [List.mem_cons, List.not_mem_nil, or_false] at h
    rcases h with rfl | rfl | rfl | rfl <;> exact ⟨by decide, by decide⟩
  · have h : c ∈ ['&', 'n', 'b', 's', 'p', ';'] := hc
    simp only [List.mem_cons, List.not_mem_nil, or_false] at h
    rcases h with rfl | rfl | rfl | rfl | rfl | rfl <;> exact ⟨by decide, by decide⟩
  · have h : c ∈ [a] := hc
    simp only [List.mem_singleton] at h
    subst h
    exact ⟨h2, h3⟩

lemma escapeHtml_no_angle (s : String) :
    ∀ c ∈ (escapeHtml s).data, c ≠ '<' ∧ c ≠ '>' := by
  intro c hc
  rw [escapeHtml_data, List.mem_flatMap] at hc
  obtain ⟨a, -, hca⟩ := hc
  exact escapeHtmlChunk_no_angle a c hca

lemma unescapeHtml_escape (l : List Char) :
    unescapeHtml (l.flatMap escapeHtmlChunk) = l := by
  induction l with
  | nil => rfl
  | cons c rest ih =>
    rw [List.flatMap_cons]
    by_cases h1 : c = '&'
    · subst h1
      show unescapeHtml ('&' :: 'a' :: 'm' :: 'p' :: ';' :: rest.flatMap escapeHtmlChunk) = _
      simp [unescapeHtml, ih]
    · by_cases h2 : c = '<'
      · subst h2
        show unescapeHtml ('&' :: 'l' :: 't' :: ';' :: rest.flatMap escapeHtmlChunk) = _
        simp [unescapeHtml, ih]
      · by_cases h3 : c = '>'
        · subst h3
          show unescapeHtml ('&' :: 'g' :: 't' :: ';' :: rest.flatMap escapeHtmlChunk) = _
          simp [unescapeHtml, ih]
        · by_cases h4 : c = nbspChar
          · subst h4
            show unescapeHtml
              ('&' :: 'n' :: 'b' :: 's' :: 'p' :: ';' :: rest.flatMap escapeHtmlChunk) = _
            simp [unescapeHtml, ih]
          · have hch : escapeHtmlChunk c = [c] := by
              simp [escapeHtmlChunk, h1, h2, h3, h4]
            rw [hch, List.singleton_append]
            rw [unescapeHtml.eq_def]
            split
            · simp_all
            · simp_all
            · simp_all
            · simp_all
            · simp_all
            · rename_i heq
              injection heq with hc hr
              subst hc
              subst hr
              simp [ih]

lemma unescapeHtml_escapeHtml (s : String) :
    unescapeHtml (escapeHtml s).data = s.data := by
  rw [escapeHtml_data]
  exact unescapeHtml_escape s.data

lemma escapeHtmlChunk_count_quote (c : Char) :
    (escapeHtmlChunk c).count '"' = (if c = '"' then 1 else 0) := by
  by_cases h1 : c = '&'
  · subst h1; decide
  · by_cases h2 : c = '<'
    · subst h2; decide
    · by_cases h3 : c = '>'
      · subst h3; decide
      · by_cases h4 : c = nbspChar
        · subst h4; decide
        · have hch : escapeHtmlChunk c = [c] := by
            simp [escapeHtmlChunk, h1, h2, h3, h4]
          rw [hch]
          by_cases h : c = '"'
          · subst h; decide
          · rw [if_neg h]
            simp [List.count_cons, h]

lemma escapeHtml_count_quote (s : String) :
    (escapeHtml s).data.count '"' = s.data.count '"' := by
  rw [escapeHtml_data]
  induction s.data with
  | nil => rfl
  | cons c rest ih =>
    rw [List.flatMap_cons, List.count_append, ih, List.count_cons, escapeHtmlChunk_count_quote]
    by_cases h : c = '"' <;> simp [h] <;> omega

/-! ## Helper lemmas: extraction plumbing -/

lemma mem_runSteps_fst {step : Nat → MsgElem → Option Question × MsgElem}
    {msgs : List MsgElem} {q : Question} :
    q ∈ (runSteps step msgs).1 ↔ ∃ p ∈ msgs.enum, (step p.1 p.2).1 = some q := by
  unfold runSteps
  simp only [List.mem_filterMap, List.mem_map]
  constructor
  · rintro ⟨x, ⟨p, hp, rfl⟩, hx⟩
    exact ⟨p, hp, hx⟩
  · rintro ⟨p, hp, hq⟩
    exact ⟨step p.1 p.2, ⟨p, hp, rfl⟩, hq⟩

lemma mem_enum_filterMap {α β : Type} {f : Nat → α → Option β} {l : List α} {b : β} :
    b ∈ (l.enum.filterMap fun p => f p.1 p.2) ↔ ∃ p ∈ l.enum, f p.1 p.2 = some b := by
  simp [List.mem_filterMap]

/-! ## Helper lemmas: per-platform question-step shapes -/

lemma chatgptStep_eq_some {i : Nat} {m : MsgElem} {q : Question} {m' : MsgElem}
    (h : chatgptStep i m = (some q, m')) :
    ∃ raw, m.inner = some raw ∧ jsTrim raw ≠ "" ∧
      q.text = truncatePreview 100 (jsTrim raw) ∧
      q.id = (if m.elemId = "" then "chatgpt-user-" ++ toString i else m.elemId) ∧
      m' = { m with elemId := q.id } := by
  cases hm : m.inner with
  | none =>
    unfold chatgptStep at h
    rw [hm] at h
    simp at h
  | some raw =>
    unfold chatgptStep at h
    rw [hm] at h
    dsimp only at h
    by_cases ht : jsTrim raw ≠ ""
    · rw [if_pos ht] at h
      refine ⟨raw, rfl, ht, ?_⟩
      injection h with h1 h2
      injection h1 with h1
      subst h1
      subst h2
      by_cases he : m.elemId = ""
      · simp [he, ← hm]
      · simp [he, ← hm]
    · rw [if_neg ht] at h
      simp at h

lemma chatgptStep_accepts {i : Nat} {m : MsgElem} {raw : String}
    (hm : m.inner = some raw) (ht : jsTrim raw ≠ "") :
    ((chatgptStep i m).1).isSome = true := by
  unfold chatgptStep
  rw [hm]
  dsimp only
  rw [if_pos ht]
  rfl

lemma deepseekStep_eq_some {i : Nat} {m : MsgElem} {q : Question} {m' : MsgElem}
    (h : deepseekStep i m = (some q, m')) :
    ∃ raw, m.inner = some raw ∧ jsTrim raw ≠ "" ∧
      q.text = truncatePreview 100 (jsTrim raw) ∧
      q.id = "deepseek-user-" ++ toString i ∧
      m' = { m with elemId := q.id } := by
  cases hm : m.inner with
  | none =>
    unfold deepseekStep at h
    rw [hm] at h
    simp at h
  | some raw =>
    unfold deepseekStep at h
    rw [hm] at h
    dsimp only at h
    by_cases ht : jsTrim raw ≠ ""
    · rw [if_pos ht] at h
      refine ⟨raw, rfl, ht, ?_⟩
      injection h with h1 h2
      injection h1 with h1
      subst h1
      subst h2
      simp [← hm]
    · rw [if_neg ht] at h
      simp at h

lemma deepseekStep_accepts {i : Nat} {m : MsgElem} {raw : String}
    (hm : m.inner = some raw) (ht : jsTrim raw ≠ "") :
    ((deepseekStep i m).1).isSome = true := by
  unfold deepseekStep
  rw [hm]
  dsimp only
  rw [if_pos ht]
  rfl

lemma perplexityStep_eq_some {i : Nat} {m : MsgElem} {q : Question} {m' : MsgElem}
    (h : perplexityStep i m = (some q, m')) :
    jsTrim (m.inner.getD m.ownText) ≠ "" ∧
    ¬(jsTrim (m.inner.getD m.ownText)).length < 10 ∧
    q.text = truncatePreview 100 (jsTrim (m.inner.getD m.ownText)) ∧
    q.id = (if m.elemId = "" then "perplexity-query-" ++ toString i else m.elemId) ∧
    m' = { m with elemId := q.id } := by
  unfold perplexityStep at h
  dsimp only at h
  by_cases ht : jsTrim (m.inner.getD m.ownText) ≠ ""
  · rw [if_pos ht] at h
    by_cases hl : (jsTrim (m.inner.getD m.ownText)).length < 10
    · rw [if_pos hl] at h
      simp at h
    · rw [if_neg hl] at h
      refine ⟨ht, hl, ?_⟩
      injection h with h1 h2
      injection h1 with h1
      subst h1
      subst h2
      by_cases he : m.elemId = ""
      · simp [he]
      · simp [he]
  · rw [if_neg ht] at h
    simp at h

lemma perplexityStep_accepts {i : Nat} {m : MsgElem}
    (ht : jsTrim (m.inner.getD m.ownText) ≠ "")
    (hl : ¬(jsTrim (m.inner.getD m.ownText)).length < 10) :
    ((perplexityStep i m).1).isSome = true := by
  unfold perplexityStep
  dsimp only
  rw [if_pos ht, if_neg hl]
  rfl

lemma claudeStep_eq_some {i : Nat} {m : MsgElem} {q : Question} {m' : MsgElem}
    (h : claudeStep i m = (some q, m')) :
    jsTrim (m.inner.getD m.ownText) ≠ "" ∧
    ¬((jsTrim (m.inner.getD m.ownText)).length < 10 ∨
      (ciStartsWith "claude:" (jsTrim (m.inner.getD m.ownText)) ∨
       ciStartsWith "assistant:" (jsTrim (m.inner.getD m.ownText)) ∨
       ciStartsWith "ai:" (jsTrim (m.inner.getD m.ownText)))) ∧
    q.text = truncatePreview 100 (jsTrim (m.inner.getD m.ownText)) ∧
    q.id = (if m.elemId = "" then "claude-user-" ++ toString i else m.elemId) ∧
    m' = { m with elemId := q.id } := by
  unfold claudeStep at h
  dsimp only at h
  by_cases ht : jsTrim (m.inner.getD m.ownText) ≠ ""
  · rw [if_pos ht] at h
    by_cases hl : (jsTrim (m.inner.getD m.ownText)).length < 10 ∨
      (ciStartsWith "claude:" (jsTrim (m.inner.getD m.ownText)) ∨
       ciStartsWith "assistant:" (jsTrim (m.inner.getD m.ownText)) ∨
       ciStartsWith "ai:" (jsTrim (m.inner.getD m.ownText)))
    · rw [if_pos hl] at h
      simp at h
    · rw [if_neg hl] at h
      refine ⟨ht, hl, ?_⟩
      injection h with h1 h2
      injection h1 with h1
      subst h1
      subst h2
      by_cases he : m.elemId = ""
      · simp [he]
      · simp [he]
  · rw [if_neg ht] at h
    simp at h

lemma claudeStep_accepts {i : Nat} {m : MsgElem}
    (ht : jsTrim (m.inner.getD m.ownText) ≠ "")
    (hl : ¬((jsTrim (m.inner.getD m.ownText)).length < 10 ∨
      (ciStartsWith "claude:" (jsTrim (m.inner.getD m.ownText)) ∨
       ciStartsWith "assistant:" (jsTrim (m.inner.getD m.ownText)) ∨
       ciStartsWith "ai:" (jsTrim (m.inner.getD m.ownText))))) :
    ((claudeStep i m).1).isSome = true := by
  unfold claudeStep
  dsimp only
  rw [if_pos ht, if_neg hl]
  rfl

lemma geminiStep_eq_some {i : Nat} {m : MsgElem} {q : Question} {m' : MsgElem}
    (h : geminiStep i m = (some q, m')) :
    jsTrim (m.inner.getD m.ownText) ≠ "" ∧
    ¬((jsTrim (m.inner.getD m.ownText)).length < 10 ∨
      (ciStartsWith "gemini:" (jsTrim (m.inner.getD m.ownText)) ∨
       ciStartsWith "bard:" (jsTrim (m.inner.getD m.ownText)) ∨
       ciStartsWith "ai:" (jsTrim (m.inner.getD m.ownText)))) ∧
    q.text = truncatePreview 100 (jsTrim (m.inner.getD m.ownText)) ∧
    q.id = (if m.elemId = "" then "gemini-user-" ++ toString i else m.elemId) ∧
    m' = { m with elemId := q.id } := by
  unfold geminiStep at h
  dsimp only at h
  by_cases ht : jsTrim (m.inner.getD m.ownText) ≠ ""
  · rw [if_pos ht] at h
    by_cases hl : (jsTrim (m.inner.getD m.ownText)).length < 10 ∨
      (ciStartsWith "gemini:" (jsTrim (m.inner.getD m.ownText)) ∨
       ciStartsWith "bard:" (jsTrim (m.inner.getD m.ownText)) ∨
       ciStartsWith "ai:" (jsTrim (m.inner.getD m.ownText)))
    · rw [if_pos hl] at h
      simp at h
    · rw [if_neg hl] at h
      refine ⟨ht, hl, ?_⟩
      injection h with h1 h2
      injection h1 with h1
      subst h1
      subst h2
      by_cases he : m.elemId = ""
      · simp [he]
      · simp [he]
  · rw [if_neg ht] at h
    simp at h

lemma geminiStep_accepts {i : Nat} {m : MsgElem}
    (ht : jsTrim (m.inner.getD m.ownText) ≠ "")
    (hl : ¬((jsTrim (m.inner.getD m.ownText)).length < 10 ∨
      (ciStartsWith "gemini:" (jsTrim (m.inner.getD m.ownText)) ∨
       ciStartsWith "bard:" (jsTrim (m.inner.getD m.ownText)) ∨
       ciStartsWith "ai:" (jsTrim (m.inner.getD m.ownText))))) :
    ((geminiStep i m).1).isSome = true := by
  unfold geminiStep
  dsimp only
  rw [if_pos ht, if_neg hl]
  rfl

lemma copilotStep_eq_some {i : Nat} {m : MsgElem} {q : Question} {m' : MsgElem}
    (h : copilotStep i m = (some q, m')) :
    jsTrim (m.inner.getD m.ownText) ≠ "" ∧
    ¬((jsTrim (m.inner.getD m.ownText)).length < 10 ∨
      (ciStartsWith "copilot:" (jsTrim (m.inner.getD m.ownText)) ∨
       ciStartsWith "bing:" (jsTrim (m.inner.getD m.ownText)) ∨
       ciStartsWith "ai:" (jsTrim (m.inner.getD m.ownText)))) ∧
    q.text = truncatePreview 100 (jsTrim (m.inner.getD m.ownText)) ∧
    q.id = (if m.elemId = "" then "copilot-user-" ++ toString i else m.elemId) ∧
    m' = { m with elemId := q.id } := by
  unfold copilotStep at h
  dsimp only at h
  by_cases ht : jsTrim (m.inner.getD m.ownText) ≠ ""
  · rw [if_pos ht] at h
    by_cases hl : (jsTrim (m.inner.getD m.ownText)).length < 10 ∨
      (ciStartsWith "copilot:" (jsTrim (m.inner.getD m.ownText)) ∨
       ciStartsWith "bing:" (jsTrim (m.inner.getD m.ownText)) ∨
       ciStartsWith "ai:" (jsTrim (m.inner.getD m.ownText)))
    · rw [if_pos hl] at h
      simp at h
    · rw [if_neg hl] at h
      refine ⟨ht, hl, ?_⟩
      injection h with h1 h2
      injection h1 with h1
      subst h1
      subst h2
      by_cases he : m.elemId = ""
      · simp [he]
      · simp [he]
  · rw [if_neg ht] at h
    simp at h

lemma copilotStep_accepts {i : Nat} {m : MsgElem}
    (ht : jsTrim (m.inner.getD m.ownText) ≠ "")
    (hl : ¬((jsTrim (m.inner.getD m.ownText)).length < 10 ∨
      (ciStartsWith "copilot:" (jsTrim (m.inner.getD m.ownText)) ∨
       ciStartsWith "bing:" (jsTrim (m.inner.getD m.ownText)) ∨
       ciStartsWith "ai:" (jsTrim (m.inner.getD m.ownText))))) :
    ((copilotStep i m).1).isSome = true := by
  unfold copilotStep
  dsimp only
  rw [if_pos ht, if_neg hl]
  rfl

lemma grokStep_eq_some {i : Nat} {m : MsgElem} {q : Question} {m' : MsgElem}
    (h : grokStep i m = (some q, m')) :
    jsTrim (m.inner.getD m.ownText) ≠ "" ∧
    ¬((jsTrim (m.inner.getD m.ownText)).length < 10 ∨
      (ciStartsWith "grok:" (jsTrim (m.inner.getD m.ownText)) ∨
       ciStartsWith "bot:" (jsTrim (m.inner.getD m.ownText)) ∨
       ciStartsWith "ai:" (jsTrim (m.inner.getD m.ownText)))) ∧
    q.text = truncatePreview 100 (jsTrim (m.inner.getD m.ownText)) ∧
    q.id = (if m.elemId = "" then "grok-user-" ++ toString i else m.elemId) ∧
    m' = { m with elemId := q.id } := by
  unfold grokStep at h
  dsimp only at h
  by_cases ht : jsTrim (m.inner.getD m.ownText) ≠ ""
  · rw [if_pos ht] at h
    by_cases hl : (jsTrim (m.inner.getD m.ownText)).length < 10 ∨
      (ciStartsWith "grok:" (jsTrim (m.inner.getD m.ownText)) ∨
       ciStartsWith "bot:" (jsTrim (m.inner.getD m.ownText)) ∨
       ciStartsWith "ai:" (jsTrim (m.inner.getD m.ownText)))
    · rw [if_pos hl] at h
      simp at h
    · rw [if_neg hl] at h
      refine ⟨ht, hl, ?_⟩
      injection h with h1 h2
      injection h1 with h1
      subst h1
      subst h2
      by_cases he : m.elemId = ""
      · simp [he]
      · simp [he]
  · rw [if_neg ht] at h
    simp at h

lemma grokStep_accepts {i : Nat} {m : MsgElem}
    (ht : jsTrim (m.inner.getD m.ownText) ≠ "")
    (hl : ¬((jsTrim (m.inner.getD m.ownText)).length < 10 ∨
      (ciStartsWith "grok:" (jsTrim (m.inner.getD m.ownText)) ∨
       ciStartsWith "bot:" (jsTrim (m.inner.getD m.ownText)) ∨
       ciStartsWith "ai:" (jsTrim (m.inner.getD m.ownText))))) :
    ((grokStep i m).1).isSome = true := by
  unfold grokStep
  dsimp only
  rw [if_pos ht, if_neg hl]
  rfl

lemma metaStep_eq_some {i : Nat} {m : MsgElem} {q : Question} {m' : MsgElem}
    (h : metaStep i m = (some q, m')) :
    jsTrim (m.inner.getD m.ownText) ≠ "" ∧
    ¬((jsTrim (m.inner.getD m.ownText)).length < 10 ∨
      (ciStartsWith "meta:" (jsTrim (m.inner.getD m.ownText)) ∨
       ciStartsWith "ai:" (jsTrim (m.inner.getD m.ownText)) ∨
       ciStartsWith "bot:" (jsTrim (m.inner.getD m.ownText)))) ∧
    q.text = truncatePreview 100 (jsTrim (m.inner.getD m.ownText)) ∧
    q.id = (if m.elemId = "" then "meta-user-" ++ toString i else m.elemId) ∧
    m' = { m with elemId := q.id } := by
  unfold metaStep at h
  dsimp only at h
  by_cases ht : jsTrim (m.inner.getD m.ownText) ≠ ""
  · rw [if_pos ht] at h
    by_cases hl : (jsTrim (m.inner.getD m.ownText)).length < 10 ∨
      (ciStartsWith "meta:" (jsTrim (m.inner.getD m.ownText)) ∨
       ciStartsWith "ai:" (jsTrim (m.inner.getD m.ownText)) ∨
       ciStartsWith "bot:" (jsTrim (m.inner.getD m.ownText)))
    · rw [if_pos hl] at h
      simp at h
    · rw [if_neg hl] at h
      refine ⟨ht, hl, ?_⟩
      injection h with h1 h2
      injection h1 with h1
      subst h1
      subst h2
      by_cases he : m.elemId = ""
      · simp [he]
      · simp [he]
  · rw [if_neg ht] at h
    simp at h

lemma metaStep_accepts {i : Nat} {m : MsgElem}
    (ht : jsTrim (m.inner.getD m.ownText) ≠ "")
    (hl : ¬((jsTrim (m.inner.getD m.ownText)).length < 10 ∨
      (ciStartsWith "meta:" (jsTrim (m.inner.getD m.ownText)) ∨
       ciStartsWith "ai:" (jsTrim (m.inner.getD m.ownText)) ∨
       ciStartsWith "bot:" (jsTrim (m.inner.getD m.ownText))))) :
    ((metaStep i m).1).isSome = true := by
  unfold metaStep
  dsimp only
  rw [if_pos ht, if_neg hl]
  rfl

/-! ## Helper lemmas: per-platform chat-step shapes -/

lemma chatgptChatStep_eq_some {i : Nat} {it : ChatElem} {c : Chat}
    (h : chatgptChatStep i it = some c) :
    jsTrim (it.titleInner.getD it.ownText) ≠ "" ∧
    c.title = jsTrim (it.titleInner.getD it.ownText) ∧
    c.url = it.href := by
  unfold chatgptChatStep at h
  dsimp only at h
  by_cases ht : jsTrim (it.titleInner.getD it.ownText) ≠ ""
  · rw [if_pos ht] at h
    injection h with h1
    subst h1
    exact ⟨ht, rfl, rfl⟩
  · rw [if_neg ht] at h
    simp at h

lemma perplexityChatStep_eq_some {i : Nat} {it : ChatElem} {c : Chat}
    (h : perplexityChatStep i it = some c) :
    jsTrim (it.titleInner.getD it.ownText) ≠ "" ∧
    c.title = truncatePreview 50 (jsTrim (it.titleInner.getD it.ownText)) ∧
    c.url = it.href := by
  unfold perplexityChatStep at h
  dsimp only at h
  by_cases ht : jsTrim (it.titleInner.getD it.ownText) ≠ ""
  · rw [if_pos ht] at h
    injection h with h1
    subst h1
    exact ⟨ht, rfl, rfl⟩
  · rw [if_neg ht] at h
    simp at h

lemma claudeChatStep_eq_some {i : Nat} {it : ChatElem} {c : Chat}
    (h : claudeChatStep i it = some c) :
    jsTrim (it.titleInner.getD it.ownText) ≠ "" ∧
    c.title = truncatePreview 50 (jsTrim (it.titleInner.getD it.ownText)) ∧
    c.url = it.href := by
  unfold claudeChatStep at h
  dsimp only at h
  by_cases ht : jsTrim (it.titleInner.getD it.ownText) ≠ ""
  · rw [if_pos ht] at h
    injection h with h1
    subst h1
    exact ⟨ht, rfl, rfl⟩
  · rw [if_neg ht] at h
    simp at h

lemma geminiChatStep_eq_some {i : Nat} {it : ChatElem} {c : Chat}
    (h : geminiChatStep i it = some c) :
    jsTrim (it.titleInner.getD it.ownText) ≠ "" ∧
    c.title = truncatePreview 50 (jsTrim (it.titleInner.getD it.ownText)) ∧
    c.url = it.href := by
  unfold geminiChatStep at h
  dsimp only at h
  by_cases ht : jsTrim (it.titleInner.getD it.ownText) ≠ ""
  · rw [if_pos ht] at h
    injection h with h1
    subst h1
    exact ⟨ht, rfl, rfl⟩
  · rw [if_neg ht] at h
    simp at h

lemma grokChatStep_eq_some {i : Nat} {it : ChatElem} {c : Chat}
    (h : grokChatStep i it = some c) :
    jsTrim (it.titleInner.getD it.ownText) ≠ "" ∧
    c.title = truncatePreview 50 (jsTrim (it.titleInner.getD it.ownText)) ∧
    c.url = it.href := by
  unfold grokChatStep at h
  dsimp only at h
  by_cases ht : jsTrim (it.titleInner.getD it.ownText) ≠ ""
  · rw [if_pos ht] at h
    injection h with h1
    subst h1
    exact ⟨ht, rfl, rfl⟩
  · rw [if_neg ht] at h
    simp at h

lemma metaChatStep_eq_some {i : Nat} {it : ChatElem} {c : Chat}
    (h : metaChatStep i it = some c) :
    jsTrim (it.titleInner.getD it.ownText) ≠ "" ∧
    c.title = truncatePreview 50 (jsTrim (it.titleInner.getD it.ownText)) ∧
    c.url = it.href := by
  unfold metaChatStep at h
  dsimp only at h
  by_cases ht : jsTrim (it.titleInner.getD it.ownText) ≠ ""
  · rw [if_pos ht] at h
    injection h with h1
    subst h1
    exact ⟨ht, rfl, rfl⟩
  · rw [if_neg ht] at h
    simp at h

lemma copilotChatStep_eq_some {i : Nat} {it : ChatElem} {c : Chat}
    (h : copilotChatStep i it = some c) :
    jsTrim (it.titleInner.getD it.ownText) ≠ "" ∧
    c.title = truncatePreview 50 (jsTrim (it.titleInner.getD it.ownText)) ∧
    c.url = it.href := by
  unfold copilotChatStep at h
  dsimp only at h
  by_cases ht : jsTrim (it.titleInner.getD it.ownText) ≠ ""
  · rw [if_pos ht] at h
    by_cases hc : ciStartsWith "home" (jsTrim (it.titleInner.getD it.ownText)) ∨
        ciStartsWith "settings" (jsTrim (it.titleInner.getD it.ownText)) ∨
        ciStartsWith "help" (jsTrim (it.titleInner.getD it.ownText)) ∨
        ciStartsWith "about" (jsTrim (it.titleInner.getD it.ownText))
    · rw [if_pos hc] at h
      simp at h
    · rw [if_neg hc] at h
      injection h with h1
      subst h1
      exact ⟨ht, rfl, rfl⟩
  · rw [if_neg ht] at h
    simp at h

lemma deepseekChatStep_eq_some {i : Nat} {it : ChatElem} {c : Chat}
    (h : deepseekChatStep i it = some c) :
    ∃ raw, it.titleInner = some raw ∧ jsTrim raw ≠ "" ∧
      c.title = jsTrim raw ∧ c.url = it.href ∧
      c.id = "deepseek-chat-" ++ toString i := by
  cases hm : it.titleInner with
  | none =>
    unfold deepseekChatStep at h
    rw [hm] at h
    simp at h
  | some raw =>
    unfold deepseekChatStep at h
    rw [hm] at h
    dsimp only at h
    by_cases ht : jsTrim raw ≠ ""
    · rw [if_pos ht] at h
      injection h with h1
      subst h1
      exact ⟨raw, rfl, ht, rfl, rfl, rfl⟩
    · rw [if_neg ht] at h
      simp at h

/-! ## Helper lemmas: getChats output decomposition -/

lemma mem_chatgptGetChats {items : List ChatElem} {heading : Option String}
    {loc : String} {c : Chat} (h : c ∈ ChatGPTParser.getChats items heading loc) :
    c ∈ chatgptHistoryChats items ∨
      ∃ t, heading = some t ∧ jsTrim t ≠ "" ∧
        c = { id := "current-chat", title := jsTrim t, url := some loc } := by
  unfold ChatGPTParser.getChats at h
  dsimp only at h
  split at h
  · cases heading with
    | none => simp at h
    | some t =>
      dsimp only at h
      by_cases htr : jsTrim t ≠ ""
      · rw [if_pos htr] at h
        right
        refine ⟨t, rfl, htr, ?_⟩
        simpa using h
      · rw [if_neg htr] at h
        simp at h
  · left
    exact h

lemma mem_grokGetChats {items : List ChatElem} {heading : Option String}
    {loc : String} {c : Chat} (h : c ∈ GrokParser.getChats items heading loc) :
    c ∈ grokHistoryChats items ∨
      ∃ t, heading = some t ∧ jsTrim t ≠ "" ∧
        c = { id := "grok-current-chat", title := jsTrim t, url := some loc } := by
  unfold GrokParser.getChats at h
  dsimp only at h
  split at h
  · cases heading with
    | none => simp at h
    | some t =>
      dsimp only at h
      by_cases htr : jsTrim t ≠ ""
      · rw [if_pos htr] at h
        right
        refine ⟨t, rfl, htr, ?_⟩
        simpa using h
      · rw [if_neg htr] at h
        simp at h
  · left
    exact h

lemma mem_geminiGetChats {items : List ChatElem} {heading : Option String}
    {loc : String} {c : Chat} (h : c ∈ GeminiParser.getChats items heading loc) :
    c ∈ geminiHistoryChats items ∨
      ∃ t, heading = some t ∧ jsTrim t ≠ "" ∧ jsIncludes "Gemini" t = false ∧
        c = { id := "gemini-current-chat", title := jsTrim t, url := some loc } := by
  unfold GeminiParser.getChats at h
  dsimp only at h
  split at h
  · cases heading with
    | none => simp at h
    | some t =>
      dsimp only at h
      by_cases htr : jsTrim t ≠ "" ∧ jsIncludes "Gemini" t = false
      · rw [if_pos htr] at h
        right
        refine ⟨t, rfl, htr.1, htr.2, ?_⟩
        simpa using h
      · rw [if_neg htr] at h
        simp at h
  · left
    exact h

lemma mem_copilotGetChats {items : List ChatElem} {heading : Option String}
    {loc : String} {c : Chat} (h : c ∈ CopilotParser.getChats items heading loc) :
    c ∈ copilotHistoryChats items ∨
      ∃ t, heading = some t ∧ jsTrim t ≠ "" ∧ jsIncludes "Copilot" t = false ∧
        jsIncludes "Bing" t = false ∧
        c = { id := "copilot-current-chat", title := jsTrim t, url := some loc } := by
  unfold CopilotParser.getChats at h
  dsimp only at h
  split at h
  · cases heading with
    | none => simp at h
    | some t =>
      dsimp only at h
      by_cases htr : jsTrim t ≠ "" ∧ jsIncludes "Copilot" t = false ∧
          jsIncludes "Bing" t = false
      · rw [if_pos htr] at h
        right
        refine ⟨t, rfl, htr.1, htr.2.1, htr.2.2, ?_⟩
        simpa using h
      · rw [if_neg htr] at h
        simp at h
  · left
    exact h

lemma mem_metaGetChats {items : List ChatElem} {heading : Option String}
    {loc : String} {c : Chat} (h : c ∈ MetaParser.getChats items heading loc) :
    c ∈ metaHistoryChats items ∨
      ∃ t, heading = some t ∧ jsTrim t ≠ "" ∧ jsIncludes "Meta AI" t = false ∧
        c = { id := "meta-current-chat", title := jsTrim t, url := some loc } := by
  unfold MetaParser.getChats at h
  dsimp only at h
  split at h
  · cases heading with
    | none => simp at h
    | some t =>
      dsimp only at h
      by_cases htr : jsTrim t ≠ "" ∧ jsIncludes "Meta AI" t = false
      · rw [if_pos htr] at h
        right
        refine ⟨t, rfl, htr.1, htr.2, ?_⟩
        simpa using h
      · rw [if_neg htr] at h
        simp at h
  · left
    exact h

lemma mem_perplexityGetChats {items : List ChatElem} {searchValue : Option String}
    {loc : String} {c : Chat} (h : c ∈ PerplexityParser.getChats items searchValue loc) :
    c ∈ perplexityHistoryChats items ∨
      ∃ v, searchValue = some v ∧ v ≠ "" ∧
        c = { id := "perplexity-current-search", title := v, url := some loc } := by
  unfold PerplexityParser.getChats at h
  dsimp only at h
  split at h
  · cases searchValue with
    | none => simp at h
    | some v =>
      dsimp only at h
      by_cases hv : v ≠ ""
      · rw [if_pos hv] at h
        right
        refine ⟨v, rfl, hv, ?_⟩
        simpa using h
      · rw [if_neg hv] at h
        simp at h
  · left
    exact h

lemma mem_claudeGetChats {items : List ChatElem} {headingTexts : List (Option String)}
    {loc : String} {c : Chat} (h : c ∈ ClaudeParser.getChats items headingTexts loc) :
    c ∈ claudeHistoryChats items ∨ c ∈ claudeFallbackChats loc headingTexts := by
  unfold ClaudeParser.getChats at h
  dsimp only at h
  split at h
  · right
    exact h
  · left
    exact h

lemma mem_claudeFallbackChats {loc : String} {cands : List (Option String)} {c : Chat}
    (h : c ∈ claudeFallbackChats loc cands) :
    ∃ raw, jsTrim raw ≠ "" ∧ jsTrim raw ≠ "Claude" ∧
      ¬(ciStartsWith "new" (jsTrim raw) ∨ ciStartsWith "untitled" (jsTrim raw)) ∧
      c = { id := "claude-current-chat", title := truncatePreview 50 (jsTrim raw),
            url := some loc } := by
  induction cands with
  | nil => simp [claudeFallbackChats] at h
  | cons hd rest ih =>
    cases hd with
    | none =>
      rw [show claudeFallbackChats loc (none :: rest) = claudeFallbackChats loc rest from rfl]
        at h
      exact ih h
    | some raw =>
      rw [claudeFallbackChats.eq_def] at h
      dsimp only at h
      by_cases ht : jsTrim raw ≠ ""
      · rw [if_pos ht] at h
        by_cases hq : jsTrim raw ≠ "Claude" ∧
            ¬(ciStartsWith "new" (jsTrim raw) ∨ ciStartsWith "untitled" (jsTrim raw))
        · rw [if_pos hq] at h
          refine ⟨raw, ht, hq.1, hq.2, ?_⟩
          simpa using h
        · rw [if_neg hq] at h
          exact ih h
      · rw [if_neg ht] at h
        exact ih h

/-! ## Helper lemmas: zero-history fallback equations -/

lemma chatgptGetChats_fallback {items : List ChatElem} (he : chatgptHistoryChats items = [])
    (heading : Option String) (loc : String) :
    ChatGPTParser.getChats items heading loc =
      (match heading with
       | some t => if jsTrim t ≠ "" then
           [{ id := "current-chat", title := jsTrim t, url := some loc }] else []
       | none => []) := by
  unfold ChatGPTParser.getChats
  dsimp only
  rw [he]
  rfl

lemma grokGetChats_fallback {items : List ChatElem} (he : grokHistoryChats items = [])
    (heading : Option String) (loc : String) :
    GrokParser.getChats items heading loc =
      (match heading with
       | some t => if jsTrim t ≠ "" then
           [{ id := "grok-current-chat", title := jsTrim t, url := some loc }] else []
       | none => []) := by
  unfold GrokParser.getChats
  dsimp only
  rw [he]
  rfl

lemma geminiGetChats_fallback {items : List ChatElem} (he : geminiHistoryChats items = [])
    (heading : Option String) (loc : String) :
    GeminiParser.getChats items heading loc =
      (match heading with
       | some t => if jsTrim t ≠ "" ∧ jsIncludes "Gemini" t = false then
           [{ id := "gemini-current-chat", title := jsTrim t, url := some loc }] else []
       | none => []) := by
  unfold GeminiParser.getChats
  dsimp only
  rw [he]
  rfl

lemma copilotGetChats_fallback {items : List ChatElem}
    (he : copilotHistoryChats items = []) (heading : Option String) (loc : String) :
    CopilotParser.getChats items heading loc =
      (match heading with
       | some t => if jsTrim t ≠ "" ∧ jsIncludes "Copilot" t = false ∧
             jsIncludes "Bing" t = false then
           [{ id := "copilot-current-chat", title := jsTrim t, url := some loc }] else []
       | none => []) := by
  unfold CopilotParser.getChats
  dsimp only
  rw [he]
  rfl

lemma metaGetChats_fallback {items : List ChatElem} (he : metaHistoryChats items = [])
    (heading : Option String) (loc : String) :
    MetaParser.getChats items heading loc =
      (match heading with
       | some t => if jsTrim t ≠ "" ∧ jsIncludes "Meta AI" t = false then
           [{ id := "meta-current-chat", title := jsTrim t, url := some loc }] else []
       | none => []) := by
  unfold MetaParser.getChats
  dsimp only
  rw [he]
  rfl

lemma perplexityGetChats_fallback {items : List ChatElem}
    (he : perplexityHistoryChats items = []) (searchValue : Option String) (loc : String) :
    PerplexityParser.getChats items searchValue loc =
      (match searchValue with
       | some v => if v ≠ "" then
           [{ id := "perplexity-current-search", title := v, url := some loc }] else []
       | none => []) := by
  unfold PerplexityParser.getChats
  dsimp only
  rw [he]
  rfl

lemma claudeGetChats_fallback {items : List ChatElem}
    (he : claudeHistoryChats items = []) (headingTexts : List (Option String))
    (loc : String) :
    ClaudeParser.getChats items headingTexts loc = claudeFallbackChats loc headingTexts := by
  unfold ClaudeParser.getChats
  dsimp only
  rw [he]
  rfl

lemma claudeFallbackChats_nil (loc : String) : claudeFallbackChats loc [] = [] := rfl

lemma claudeFallbackChats_none (loc : String) (rest : List (Option String)) :
    claudeFallbackChats loc (none :: rest) = claudeFallbackChats loc rest := rfl

lemma claudeFallbackChats_some_accept {t : String} (ht : jsTrim t ≠ "")
    (hq : jsTrim t ≠ "Claude" ∧
      ¬(ciStartsWith "new" (jsTrim t) ∨ ciStartsWith "untitled" (jsTrim t)))
    (loc : String) (rest : List (Option String)) :
    claudeFallbackChats loc (some t :: rest) =
      [{ id := "claude-current-chat", title := truncatePreview 50 (jsTrim t),
         url := some loc }] := by
  rw [claudeFallbackChats.eq_def]
  dsimp only
  rw [if_pos ht, if_pos hq]

lemma claudeFallbackChats_some_skip {t : String}
    (hq : ¬(jsTrim t ≠ "" ∧ jsTrim t ≠ "Claude" ∧
      ¬(ciStartsWith "new" (jsTrim t) ∨ ciStartsWith "untitled" (jsTrim t))))
    (loc : String) (rest : List (Option String)) :
    claudeFallbackChats loc (some t :: rest) = claudeFallbackChats loc rest := by
  rw [claudeFallbackChats.eq_def]
  dsimp only
  by_cases ht : jsTrim t ≠ ""
  · rw [if_pos ht]
    rw [if_neg]
    intro hcon
    exact hq ⟨ht, hcon⟩
  · rw [if_neg ht]

/-! ## Helper lemmas: panel state machine -/

lemma stepUI_openCount (s : PanelState) (e : UIEvent) : openCount (stepUI s e) ≤ 1 := by
  cases e with
  | toggle t =>
    show openCount (togglePanel t s) ≤ 1
    unfold togglePanel
    by_cases h : s.activePanel = some t
    · rw [if_pos h]
      exact Nat.zero_le 1
    · rw [if_neg h]
      cases t <;> exact Nat.le_refl 1
  | outsideClick => exact Nat.zero_le 1
  | escapeKey => exact Nat.zero_le 1

lemma foldl_stepUI_openCount (events : List UIEvent) :
    ∀ s : PanelState, openCount s ≤ 1 → openCount (events.foldl stepUI s) ≤ 1 := by
  induction events with
  | nil => exact fun s h => h
  | cons e rest ih =>
    intro s _
    exact ih (stepUI s e) (stepUI_openCount s e)

/-! ## Claim theorems -/

/-- C3: starting from the initial state (both panels closed), after any
finite sequence of `togglePanel` calls and unconditional close triggers
(outside click, Escape), at most one of the two panels carries the
`show` class; `togglePanel` on the currently open kind resets to the
all-closed state, and `togglePanel` on the other kind opens the
requested panel and closes the open one. -/
theorem claim_C3 :
    (∀ events : List UIEvent, openCount (runUI events) ≤ 1) ∧
    (∀ (s : PanelState) (t : PanelType), s.activePanel = some t →
      togglePanel t s = initPanelState) ∧
    (∀ (s : PanelState) (t u : PanelType), s.activePanel = some t → u ≠ t →
      (togglePanel u s).activePanel = some u ∧ showOf u (togglePanel u s) = true ∧
      showOf t (togglePanel u s) = false) := by
  refine ⟨fun events => foldl_stepUI_openCount events initPanelState (Nat.zero_le 1),
    fun s t h => ?_, fun s t u h hu => ?_⟩
  · unfold togglePanel
    rw [if_pos h]
    rfl
  · have hne : ¬s.activePanel = some u := by
      rw [h]
      intro hh
      injection hh with hh
      exact hu hh.symm
    unfold togglePanel
    rw [if_neg hne]
    cases u with
    | questions =>
      cases t with
      | questions => exact absurd rfl hu
      | chats => exact ⟨rfl, rfl, rfl⟩
    | chats =>
      cases t with
      | questions => exact ⟨rfl, rfl, rfl⟩
      | chats => exact absurd rfl hu

/-- Witness for C3 at a concrete interaction sequence: after opening the
Questions panel, toggling Questions again closes everything, and
toggling Chats instead opens Chats. -/
theorem claim_C3_witness :
    openCount (runUI [UIEvent.toggle PanelType.questions, UIEvent.toggle PanelType.chats]) ≤
      1 ∧
    togglePanel PanelType.questions (runUI [UIEvent.toggle PanelType.questions]) =
      initPanelState ∧
    (togglePanel PanelType.chats (runUI [UIEvent.toggle PanelType.questions])).activePanel =
      some PanelType.chats :=
  ⟨claim_C3.1 _,
   claim_C3.2.1 _ _ (by decide),
   (claim_C3.2.2 _ PanelType.questions PanelType.chats (by decide) (by decide)).1⟩

/-- C2: rendered rows pass the item text through `escapeHtml` before
inserting it into the row markup; escaped text contains no raw angle
brackets (so markup-significant characters such as those of
`<script>` cannot open or close a tag), and the browser-side decoding
of the escaped text recovers exactly the original characters, i.e. the
text is rendered as literal text. -/
theorem claim_C2 :
    (∀ s : String, ∀ c ∈ (escapeHtml s).data, c ≠ '<' ∧ c ≠ '>') ∧
    (∀ s : String, unescapeHtml (escapeHtml s).data = s.data) ∧
    (∀ question : Question, ∃ pre post : String,
      questionRow question = pre ++ escapeHtml question.text ++ post) ∧
    (∀ chat : Chat, ∃ pre post : String,
      chatRow chat = pre ++ escapeHtml chat.title ++ post) :=
  ⟨escapeHtml_no_angle, unescapeHtml_escapeHtml,
   fun question =>
     ⟨"\n      <div class=\"nav-item\" data-element-id=\"" ++ question.id ++
       "\">\n        <div class=\"nav-item-text\">", "</div>\n      </div>\n    ", rfl⟩,
   fun chat =>
     ⟨"\n      <div class=\"nav-item\" data-element-id=\"" ++ chat.id ++
       "\">\n        <div class=\"nav-item-text\">", "</div>\n      </div>\n    ", rfl⟩⟩

/-- Witness for C2 at the text `<script>alert(1)</script>`: its escaped
form contains the ampersand (a character of the escaped region), no
character of the escaped form is an angle bracket, and decoding
restores the literal text. -/
theorem claim_C2_witness :
    '&' ∈ (escapeHtml "<script>alert(1)</script>").data ∧
    ('&' ≠ '<' ∧ '&' ≠ '>') ∧
    unescapeHtml (escapeHtml "<script>alert(1)</script>").data =
      "<script>alert(1)</script>".data :=
  ⟨by decide, claim_C2.1 "<script>alert(1)</script>" '&' (by decide),
   claim_C2.2.1 "<script>alert(1)</script>"⟩

/-- C9: a row activation whose id resolves neither via
`document.getElementById` nor via the `[data-id="..."]` query produces
no scroll and no highlight effect, throws no exception into the event
path (the result is `Except.ok`), and leaves every panel closed. -/
theorem claim_C9 (d : Doc) (s : PanelState) (elementId : String)
    (h1 : getElementById d elementId = none) (h2 : queryByDataId d elementId = none) :
    rowClick d s elementId = .ok ([], initPanelState) := by
  unfold rowClick scrollToElement
  rw [h1, h2]
  rfl

/-- Witness for C9: a concrete document whose indexes do not contain the
clicked id "stale-id", starting from an open Questions panel. -/
theorem claim_C9_witness :
    getElementById ⟨[("a", 1)], [("b", 2)]⟩ "stale-id" = none ∧
    queryByDataId ⟨[("a", 1)], [("b", 2)]⟩ "stale-id" = none ∧
    rowClick ⟨[("a", 1)], [("b", 2)]⟩ (togglePanel PanelType.questions initPanelState)
      "stale-id" = .ok ([], initPanelState) :=
  ⟨by decide, by decide,
   claim_C9 ⟨[("a", 1)], [("b", 2)]⟩ (togglePanel PanelType.questions initPanelState)
     "stale-id" (by decide) (by decide)⟩

/-- C10: `renderQuestions` and `renderChats` interpolate the item id
verbatim into the row's `data-element-id` attribute while `escapeHtml`
is applied only to the text/title, and `escapeHtml` leaves double
quotes unchanged — so each row's markup carries exactly the six quote
characters of the template plus, unescaped, every quote of the id and
of the text. -/
theorem claim_C10 :
    (∀ question : Question, ∃ pre mid post : String,
      questionRow question =
        pre ++ question.id ++ mid ++ escapeHtml question.text ++ post) ∧
    (∀ chat : Chat, ∃ pre mid post : String,
      chatRow chat = pre ++ chat.id ++ mid ++ escapeHtml chat.title ++ post) ∧
    (∀ s : String, (escapeHtml s).data.count '"' = s.data.count '"') ∧
    (∀ question : Question, (questionRow question).data.count '"' =
      6 + question.id.data.count '"' + question.text.data.count '"') ∧
    (∀ chat : Chat, (chatRow chat).data.count '"' =
      6 + chat.id.data.count '"' + chat.title.data.count '"') := by
  refine ⟨fun question => ⟨"\n      <div class=\"nav-item\" data-element-id=\"",
      "\">\n        <div class=\"nav-item-text\">", "</div>\n      </div>\n    ", rfl⟩,
    fun chat => ⟨"\n      <div class=\"nav-item\" data-element-id=\"",
      "\">\n        <div class=\"nav-item-text\">", "</div>\n      </div>\n    ", rfl⟩,
    escapeHtml_count_quote, fun question => ?_, fun chat => ?_⟩
  · unfold questionRow
    simp only [String.data_append, List.count_append]
    rw [escapeHtml_count_quote]
    have hA : ("\n      <div class=\"nav-item\" data-element-id=\"" :
        String).data.count '"' = 3 := by decide
    have hB : ("\">\n        <div class=\"nav-item-text\">" : String).data.count '"' = 3 :=
      by decide
    have hC : ("</div>\n      </div>\n    " : String).data.count '"' = 0 := by decide
    rw [hA, hB, hC]
    omega
  · unfold chatRow
    simp only [String.data_append, List.count_append]
    rw [escapeHtml_count_quote]
    have hA : ("\n      <div class=\"nav-item\" data-element-id=\"" :
        String).data.count '"' = 3 := by decide
    have hB : ("\">\n        <div class=\"nav-item-text\">" : String).data.count '"' = 3 :=
      by decide
    have hC : ("</div>\n      </div>\n    " : String).data.count '"' = 0 := by decide
    rw [hA, hB, hC]
    omega

/-- C8: when N structural-change notifications each arrive less than the
500ms quiet period after the previous one, the debounced observer
callback of `startObserver` fires exactly one refresh, scheduled one
quiet period after the last notification of the burst. -/
theorem claim_C8 : ∀ times : List Nat, times ≠ [] →
    List.Chain' (fun a b => a ≤ b ∧ b < a + updateDelayMs) times →
    ∃ tN, times.getLast? = some tN ∧
      debounceFires updateDelayMs times = [tN + updateDelayMs] := by
  intro times
  induction times with
  | nil => exact fun h => absurd rfl h
  | cons t rest ih =>
    intro _ hch
    cases rest with
    | nil => exact ⟨t, rfl, rfl⟩
    | cons t2 rest2 =>
      have hlt : t2 < t + updateDelayMs := (List.chain'_cons.mp hch).1.2
      obtain ⟨tN, hlast, hfires⟩ := ih (by simp) (List.chain'_cons.mp hch).2
      refine ⟨tN, ?_, ?_⟩
      · rw [List.getLast?_cons_cons]
        exact hlast
      · show (if t2 < t + updateDelayMs then ([] : List Nat)
            else [t + updateDelayMs]) ++ debounceFires updateDelayMs (t2 :: rest2) =
          [tN + updateDelayMs]
        rw [if_pos hlt, List.nil_append, hfires]

/-- Witness for C8 at the burst 0ms, 100ms, 200ms (gaps under 500ms):
exactly one refresh fires, at 700ms = 200ms + the quiet period. -/
theorem claim_C8_witness :
    ([0, 100, 200] : List Nat) ≠ [] ∧
    ∃ tN, ([0, 100, 200] : List Nat).getLast? = some tN ∧
      debounceFires updateDelayMs [0, 100, 200] = [tN + updateDelayMs] :=
  ⟨by decide, claim_C8 [0, 100, 200] (by decide)
    (List.chain'_cons.mpr ⟨⟨by decide, by decide⟩,
      List.chain'_cons.mpr ⟨⟨by decide, by decide⟩, List.chain'_singleton 200⟩⟩)⟩

lemma pair_eta_of_fst {α β : Type} {x : α × β} {a : α} (h : x.1 = a) : x = (a, x.2) := by
  rw [← h]

set_option maxRecDepth 8000 in
/-- C1 counterexample: `ChatGPTParser.getChats` stores a 60-character
history title untruncated (no 50-cap, no ellipsis marker), and
`ChatGPTParser.getQuestions` stores a 103-character preview (100
characters plus the 3-character marker) for a 151-character message, so
the stored length exceeds the claimed cap in both cases. -/
theorem claim_C1_counterexample :
    ¬ (∀ c ∈ ChatGPTParser.getChats
        [{ titleInner := some "A verbose conversation title of exactly sixty characters xxx", ownText := "", href := none }] none "u",
        c.title.length ≤ 50) ∧
    ¬ (∀ q ∈ (ChatGPTParser.getQuestions
        [{ elemId := "", inner := some "This question text is deliberately very long so that it exceeds the one hundred character preview cap used by all the parsers in this browser extension", ownText := "" }]).1,
        q.text.length ≤ 100) := by
  constructor
  · decide
  · decide

/-- C1 amended: every question preview, on every platform, is the
100-cap truncation (`first 100 characters ++ "..."` when longer, the
trimmed text itself otherwise) of the candidate's trimmed source text —
hence at most 103 characters, ending in the marker with the rest a
prefix of the source when truncated.  Chat titles are 50-cap truncated
on the history paths of Perplexity, Claude, Gemini, Grok, Copilot and
Meta and on Claude's fallback path, while ChatGPT and DeepSeek history
titles and the ChatGPT/Perplexity/Gemini/Grok/Copilot/Meta fallback
titles are stored untruncated. -/
theorem claim_C1_amended :
    (∀ (cap : Nat) (s : String), (truncatePreview cap s).length ≤ cap + 3 ∧
      (s.length ≤ cap → truncatePreview cap s = s) ∧
      (cap < s.length → ∃ t : String, truncatePreview cap s = t ++ "..." ∧
        t.data.isPrefixOf s.data = true ∧ t.length = cap)) ∧
    (∀ msgs q, q ∈ (ChatGPTParser.getQuestions msgs).1 →
      ∃ p ∈ msgs.enum, ∃ raw, p.2.inner = some raw ∧
        q.text = truncatePreview 100 (jsTrim raw)) ∧
    (∀ msgs q, q ∈ (DeepSeekParser.getQuestions msgs).1 →
      ∃ p ∈ msgs.enum, ∃ raw, p.2.inner = some raw ∧
        q.text = truncatePreview 100 (jsTrim raw)) ∧
    (∀ msgs q, q ∈ (PerplexityParser.getQuestions msgs).1 →
      ∃ p ∈ msgs.enum, q.text = truncatePreview 100 (jsTrim (p.2.inner.getD p.2.ownText))) ∧
    (∀ msgs q, q ∈ (ClaudeParser.getQuestions msgs).1 →
      ∃ p ∈ msgs.enum, q.text = truncatePreview 100 (jsTrim (p.2.inner.getD p.2.ownText))) ∧
    (∀ msgs q, q ∈ (GeminiParser.getQuestions msgs).1 →
      ∃ p ∈ msgs.enum, q.text = truncatePreview 100 (jsTrim (p.2.inner.getD p.2.ownText))) ∧
    (∀ msgs q, q ∈ (CopilotParser.getQuestions msgs).1 →
      ∃ p ∈ msgs.enum, q.text = truncatePreview 100 (jsTrim (p.2.inner.getD p.2.ownText))) ∧
    (∀ msgs q, q ∈ (GrokParser.getQuestions msgs).1 →
      ∃ p ∈ msgs.enum, q.text = truncatePreview 100 (jsTrim (p.2.inner.getD p.2.ownText))) ∧
    (∀ msgs q, q ∈ (MetaParser.getQuestions msgs).1 →
      ∃ p ∈ msgs.enum, q.text = truncatePreview 100 (jsTrim (p.2.inner.getD p.2.ownText))) ∧
    (∀ items heading loc c, c ∈ ChatGPTParser.getChats items heading loc →
      (∃ p ∈ items.enum, c.title = jsTrim (p.2.titleInner.getD p.2.ownText)) ∨
      (∃ t, heading = some t ∧ c.title = jsTrim t)) ∧
    (∀ items c, c ∈ DeepSeekParser.getChats items →
      ∃ p ∈ items.enum, ∃ raw, p.2.titleInner = some raw ∧ c.title = jsTrim raw) ∧
    (∀ items searchValue loc c, c ∈ PerplexityParser.getChats items searchValue loc →
      (∃ p ∈ items.enum,
        c.title = truncatePreview 50 (jsTrim (p.2.titleInner.getD p.2.ownText))) ∨
      (∃ v, searchValue = some v ∧ c.title = v)) ∧
    (∀ items cands loc c, c ∈ ClaudeParser.getChats items cands loc →
      ∃ s, c.title = truncatePreview 50 (jsTrim s)) ∧
    (∀ items heading loc c, c ∈ GeminiParser.getChats items heading loc →
      (∃ p ∈ items.enum,
        c.title = truncatePreview 50 (jsTrim (p.2.titleInner.getD p.2.ownText))) ∨
      (∃ t, heading = some t ∧ c.title = jsTrim t)) ∧
    (∀ items heading loc c, c ∈ CopilotParser.getChats items heading loc →
      (∃ p ∈ items.enum,
        c.title = truncatePreview 50 (jsTrim (p.2.titleInner.getD p.2.ownText))) ∨
      (∃ t, heading = some t ∧ c.title = jsTrim t)) ∧
    (∀ items heading loc c, c ∈ GrokParser.getChats items heading loc →
      (∃ p ∈ items.enum,
        c.title = truncatePreview 50 (jsTrim (p.2.titleInner.getD p.2.ownText))) ∨
      (∃ t, heading = some t ∧ c.title = jsTrim t)) ∧
    (∀ items heading loc c, c ∈ MetaParser.getChats items heading loc →
      (∃ p ∈ items.enum,
        c.title = truncatePreview 50 (jsTrim (p.2.titleInner.getD p.2.ownText))) ∨
      (∃ t, heading = some t ∧ c.title = jsTrim t)) := by
  refine ⟨truncatePreview_cases, ?_, ?_, ?_, ?_, ?_, ?_, ?_, ?_, ?_, ?_, ?_, ?_, ?_, ?_,
    ?_, ?_⟩
  · intro msgs q h
    obtain ⟨p, hp, hstep⟩ := mem_runSteps_fst.mp h
    obtain ⟨raw, hraw, -, htext, -, -⟩ := chatgptStep_eq_some (pair_eta_of_fst hstep)
    exact ⟨p, hp, raw, hraw, htext⟩
  · intro msgs q h
    obtain ⟨p, hp, hstep⟩ := mem_runSteps_fst.mp h
    obtain ⟨raw, hraw, -, htext, -, -⟩ := deepseekStep_eq_some (pair_eta_of_fst hstep)
    exact ⟨p, hp, raw, hraw, htext⟩
  · intro msgs q h
    obtain ⟨p, hp, hstep⟩ := mem_runSteps_fst.mp h
    obtain ⟨-, -, htext, -, -⟩ := perplexityStep_eq_some (pair_eta_of_fst hstep)
    exact ⟨p, hp, htext⟩
  · intro msgs q h
    obtain ⟨p, hp, hstep⟩ := mem_runSteps_fst.mp h
    obtain ⟨-, -, htext, -, -⟩ := claudeStep_eq_some (pair_eta_of_fst hstep)
    exact ⟨p, hp, htext⟩
  · intro msgs q h
    obtain ⟨p, hp, hstep⟩ := mem_runSteps_fst.mp h
    obtain ⟨-, -, htext, -, -⟩ := geminiStep_eq_some (pair_eta_of_fst hstep)
    exact ⟨p, hp, htext⟩
  · intro msgs q h
    obtain ⟨p, hp, hstep⟩ := mem_runSteps_fst.mp h
    obtain ⟨-, -, htext, -, -⟩ := copilotStep_eq_some (pair_eta_of_fst hstep)
    exact ⟨p, hp, htext⟩
  · intro msgs q h
    obtain ⟨p, hp, hstep⟩ := mem_runSteps_fst.mp h
    obtain ⟨-, -, htext, -, -⟩ := grokStep_eq_some (pair_eta_of_fst hstep)
    exact ⟨p, hp, htext⟩
  · intro msgs q h
    obtain ⟨p, hp, hstep⟩ := mem_runSteps_fst.mp h
    obtain ⟨-, -, htext, -, -⟩ := metaStep_eq_some (pair_eta_of_fst hstep)
    exact ⟨p, hp, htext⟩
  · intro items heading loc c h
    rcases mem_chatgptGetChats h with hh | ⟨t, hheq, -, hc⟩
    · obtain ⟨p, hp, hstep⟩ := mem_enum_filterMap.mp hh
      obtain ⟨-, htitle, -⟩ := chatgptChatStep_eq_some hstep
      exact Or.inl ⟨p, hp, htitle⟩
    · exact Or.inr ⟨t, hheq, by rw [hc]⟩
  · intro items c h
    obtain ⟨p, hp, hstep⟩ := mem_enum_filterMap.mp h
    obtain ⟨raw, hraw, -, htitle, -, -⟩ := deepseekChatStep_eq_some hstep
    exact ⟨p, hp, raw, hraw, htitle⟩
  · intro items searchValue loc c h
    rcases mem_perplexityGetChats h with hh | ⟨v, hveq, -, hc⟩
    · obtain ⟨p, hp, hstep⟩ := mem_enum_filterMap.mp hh
      obtain ⟨-, htitle, -⟩ := perplexityChatStep_eq_some hstep
      exact Or.inl ⟨p, hp, htitle⟩
    · exact Or.inr ⟨v, hveq, by rw [hc]⟩
  · intro items cands loc c h
    rcases mem_claudeGetChats h with hh | hf
    · obtain ⟨p, hp, hstep⟩ := mem_enum_filterMap.mp hh
      obtain ⟨-, htitle, -⟩ := claudeChatStep_eq_some hstep
      exact ⟨p.2.titleInner.getD p.2.ownText, htitle⟩
    · obtain ⟨raw, -, -, -, hc⟩ := mem_claudeFallbackChats hf
      exact ⟨raw, by rw [hc]⟩
  · intro items heading loc c h
    rcases mem_geminiGetChats h with hh | ⟨t, hheq, -, -, hc⟩
    · obtain ⟨p, hp, hstep⟩ := mem_enum_filterMap.mp hh
      obtain ⟨-, htitle, -⟩ := geminiChatStep_eq_some hstep
      exact Or.inl ⟨p, hp, htitle⟩
    · exact Or.inr ⟨t, hheq, by rw [hc]⟩
  · intro items heading loc c h
    rcases mem_copilotGetChats h with hh | ⟨t, hheq, -, -, -, hc⟩
    · obtain ⟨p, hp, hstep⟩ := mem_enum_filterMap.mp hh
      obtain ⟨-, htitle, -⟩ := copilotChatStep_eq_some hstep
      exact Or.inl ⟨p, hp, htitle⟩
    · exact Or.inr ⟨t, hheq, by rw [hc]⟩
  · intro items heading loc c h
    rcases mem_grokGetChats h with hh | ⟨t, hheq, -, hc⟩
    · obtain ⟨p, hp, hstep⟩ := mem_enum_filterMap.mp hh
      obtain ⟨-, htitle, -⟩ := grokChatStep_eq_some hstep
      exact Or.inl ⟨p, hp, htitle⟩
    · exact Or.inr ⟨t, hheq, by rw [hc]⟩
  · intro items heading loc c h
    rcases mem_metaGetChats h with hh | ⟨t, hheq, -, -, hc⟩
    · obtain ⟨p, hp, hstep⟩ := mem_enum_filterMap.mp hh
      obtain ⟨-, htitle, -⟩ := metaChatStep_eq_some hstep
      exact Or.inl ⟨p, hp, htitle⟩
    · exact Or.inr ⟨t, hheq, by rw [hc]⟩

/-- Witness for C1 amended at a concrete ChatGPT extraction. -/
theorem claim_C1_amended_witness :
    ∃ p ∈ ([{ elemId := "", inner := some "hello world", ownText := "" }] :
        List MsgElem).enum,
      ∃ raw, p.2.inner = some raw ∧
        ({ id := "chatgpt-user-0", text := "hello world" } : Question).text =
          truncatePreview 100 (jsTrim raw) :=
  claim_C1_amended.2.1 [{ elemId := "", inner := some "hello world", ownText := "" }]
    { id := "chatgpt-user-0", text := "hello world" } (by decide)

/-- C4 counterexample: `DeepSeekParser.getQuestions` keeps a candidate
whose trimmed text ("short", 5 characters) is below the claimed
10-character minimum signal length — the claim's "on every platform"
rejection does not hold on DeepSeek (nor on ChatGPT). -/
theorem claim_C4_counterexample :
    (jsTrim "short").length < 10 ∧
    (DeepSeekParser.getQuestions
      [{ elemId := "", inner := some "short", ownText := "" }]).1 =
      [{ id := "deepseek-user-0", text := "short" }] :=
  ⟨by decide, by decide⟩

/-- C4 amended: acceptance characterizations per platform.  Perplexity
rejects exactly the candidates whose resolved trimmed text is empty or
shorter than 10; Claude, Gemini, Copilot, Grok and Meta additionally
reject assistant-prefixed texts; ChatGPT and DeepSeek have no
minimum-length filter and accept every candidate with an inner text
node and non-empty trimmed text. -/
theorem claim_C4_amended :
    (∀ (i : Nat) (m : MsgElem), ((perplexityStep i m).1).isSome = true ↔
      (jsTrim (m.inner.getD m.ownText) ≠ "" ∧
       ¬(jsTrim (m.inner.getD m.ownText)).length < 10)) ∧
    (∀ (i : Nat) (m : MsgElem), ((claudeStep i m).1).isSome = true ↔
      (jsTrim (m.inner.getD m.ownText) ≠ "" ∧
       ¬((jsTrim (m.inner.getD m.ownText)).length < 10 ∨
         (ciStartsWith "claude:" (jsTrim (m.inner.getD m.ownText)) ∨
          ciStartsWith "assistant:" (jsTrim (m.inner.getD m.ownText)) ∨
          ciStartsWith "ai:" (jsTrim (m.inner.getD m.ownText)))))) ∧
    (∀ (i : Nat) (m : MsgElem), ((geminiStep i m).1).isSome = true ↔
      (jsTrim (m.inner.getD m.ownText) ≠ "" ∧
       ¬((jsTrim (m.inner.getD m.ownText)).length < 10 ∨
         (ciStartsWith "gemini:" (jsTrim (m.inner.getD m.ownText)) ∨
          ciStartsWith "bard:" (jsTrim (m.inner.getD m.ownText)) ∨
          ciStartsWith "ai:" (jsTrim (m.inner.getD m.ownText)))))) ∧
    (∀ (i : Nat) (m : MsgElem), ((copilotStep i m).1).isSome = true ↔
      (jsTrim (m.inner.getD m.ownText) ≠ "" ∧
       ¬((jsTrim (m.inner.getD m.ownText)).length < 10 ∨
         (ciStartsWith "copilot:" (jsTrim (m.inner.getD m.ownText)) ∨
          ciStartsWith "bing:" (jsTrim (m.inner.getD m.ownText)) ∨
          ciStartsWith "ai:" (jsTrim (m.inner.getD m.ownText)))))) ∧
    (∀ (i : Nat) (m : MsgElem), ((grokStep i m).1).isSome = true ↔
      (jsTrim (m.inner.getD m.ownText) ≠ "" ∧
       ¬((jsTrim (m.inner.getD m.ownText)).length < 10 ∨
         (ciStartsWith "grok:" (jsTrim (m.inner.getD m.ownText)) ∨
          ciStartsWith "bot:" (jsTrim (m.inner.getD m.ownText)) ∨
          ciStartsWith "ai:" (jsTrim (m.inner.getD m.ownText)))))) ∧
    (∀ (i : Nat) (m : MsgElem), ((metaStep i m).1).isSome = true ↔
      (jsTrim (m.inner.getD m.ownText) ≠ "" ∧
       ¬((jsTrim (m.inner.getD m.ownText)).length < 10 ∨
         (ciStartsWith "meta:" (jsTrim (m.inner.getD m.ownText)) ∨
          ciStartsWith "ai:" (jsTrim (m.inner.getD m.ownText)) ∨
          ciStartsWith "bot:" (jsTrim (m.inner.getD m.ownText)))))) ∧
    (∀ (i : Nat) (m : MsgElem), ((chatgptStep i m).1).isSome = true ↔
      ∃ raw, m.inner = some raw ∧ jsTrim raw ≠ "") ∧
    (∀ (i : Nat) (m : MsgElem), ((deepseekStep i m).1).isSome = true ↔
      ∃ raw, m.inner = some raw ∧ jsTrim raw ≠ "") := by
  refine ⟨?_, ?_, ?_, ?_, ?_, ?_, ?_, ?_⟩
  · intro i m
    constructor
    · intro h
      obtain ⟨q, hq⟩ := Option.isSome_iff_exists.mp h
      obtain ⟨ht, hl, -, -, -⟩ := perplexityStep_eq_some (pair_eta_of_fst hq)
      exact ⟨ht, hl⟩
    · rintro ⟨ht, hl⟩
      exact perplexityStep_accepts ht hl
  · intro i m
    constructor
    · intro h
      obtain ⟨q, hq⟩ := Option.isSome_iff_exists.mp h
      obtain ⟨ht, hl, -, -, -⟩ := claudeStep_eq_some (pair_eta_of_fst hq)
      exact ⟨ht, hl⟩
    · rintro ⟨ht, hl⟩
      exact claudeStep_accepts ht hl
  · intro i m
    constructor
    · intro h
      obtain ⟨q, hq⟩ := Option.isSome_iff_exists.mp h
      obtain ⟨ht, hl, -, -, -⟩ := geminiStep_eq_some (pair_eta_of_fst hq)
      exact ⟨ht, hl⟩
    · rintro ⟨ht, hl⟩
      exact geminiStep_accepts ht hl
  · intro i m
    constructor
    · intro h
      obtain ⟨q, hq⟩ := Option.isSome_iff_exists.mp h
      obtain ⟨ht, hl, -, -, -⟩ := copilotStep_eq_some (pair_eta_of_fst hq)
      exact ⟨ht, hl⟩
    · rintro ⟨ht, hl⟩
      exact copilotStep_accepts ht hl
  · intro i m
    constructor
    · intro h
      obtain ⟨q, hq⟩ := Option.isSome_iff_exists.mp h
      obtain ⟨ht, hl, -, -, -⟩ := grokStep_eq_some (pair_eta_of_fst hq)
      exact ⟨ht, hl⟩
    · rintro ⟨ht, hl⟩
      exact grokStep_accepts ht hl
  · intro i m
    constructor
    · intro h
      obtain ⟨q, hq⟩ := Option.isSome_iff_exists.mp h
      obtain ⟨ht, hl, -, -, -⟩ := metaStep_eq_some (pair_eta_of_fst hq)
      exact ⟨ht, hl⟩
    · rintro ⟨ht, hl⟩
      exact metaStep_accepts ht hl
  · intro i m
    constructor
    · intro h
      obtain ⟨q, hq⟩ := Option.isSome_iff_exists.mp h
      obtain ⟨raw, hraw, ht, -, -, -⟩ := chatgptStep_eq_some (pair_eta_of_fst hq)
      exact ⟨raw, hraw, ht⟩
    · rintro ⟨raw, hraw, ht⟩
      exact chatgptStep_accepts hraw ht
  · intro i m
    constructor
    · intro h
      obtain ⟨q, hq⟩ := Option.isSome_iff_exists.mp h
      obtain ⟨raw, hraw, ht, -, -, -⟩ := deepseekStep_eq_some (pair_eta_of_fst hq)
      exact ⟨raw, hraw, ht⟩
    · rintro ⟨raw, hraw, ht⟩
      exact deepseekStep_accepts hraw ht

/-- Witness for C4 amended: a 28-character Perplexity candidate is
accepted, via the characterization. -/
theorem claim_C4_amended_witness :
    ((perplexityStep 0 { elemId := "", inner := some "tell me about lists", ownText := "" }).1).isSome = true :=
  (claim_C4_amended.1 0 { elemId := "", inner := some "tell me about lists", ownText := "" }).mpr
    ⟨by decide, by decide⟩

/-- C5 counterexample: `DeepSeekParser.getQuestions` ignores an already
stamped element id ("keep-me"), synthesizes `deepseek-user-0` and
overwrites the stamp — contradicting the claim's "uses the element's
already-stamped id when one is present (it does not replace it)" for
every platform. -/
theorem claim_C5_counterexample :
    (DeepSeekParser.getQuestions
      [{ elemId := "keep-me", inner := some "hello there friend", ownText := "" }]).1 =
      [{ id := "deepseek-user-0", text := "hello there friend" }] ∧
    (DeepSeekParser.getQuestions
      [{ elemId := "keep-me", inner := some "hello there friend", ownText := "" }]).2 =
      [{ elemId := "deepseek-user-0", inner := some "hello there friend", ownText := "" }] ∧
    ("deepseek-user-0" : String) ≠ "keep-me" :=
  ⟨by decide, by decide, by decide⟩

/-- C5 amended: on ChatGPT, Claude, Gemini, Copilot, Grok and Meta an
accepted candidate reuses a non-empty stamped element id and otherwise
receives the synthesized `{platform}-user-{index}` id, which is stamped
onto the element; an element whose id was already set is returned
unchanged.  Perplexity behaves the same but synthesizes
`perplexity-query-{index}`.  DeepSeek always synthesizes
`deepseek-user-{index}` and stamps it, overwriting any existing id. -/
theorem claim_C5_amended :
    (∀ (i : Nat) (m : MsgElem) (q : Question) (m' : MsgElem),
      chatgptStep i m = (some q, m') →
      q.id = (if m.elemId = "" then "chatgpt-user-" ++ toString i else m.elemId) ∧
      m' = { m with elemId := q.id } ∧ (m.elemId ≠ "" → m' = m)) ∧
    (∀ (i : Nat) (m : MsgElem) (q : Question) (m' : MsgElem),
      claudeStep i m = (some q, m') →
      q.id = (if m.elemId = "" then "claude-user-" ++ toString i else m.elemId) ∧
      m' = { m with elemId := q.id } ∧ (m.elemId ≠ "" → m' = m)) ∧
    (∀ (i : Nat) (m : MsgElem) (q : Question) (m' : MsgElem),
      geminiStep i m = (some q, m') →
      q.id = (if m.elemId = "" then "gemini-user-" ++ toString i else m.elemId) ∧
      m' = { m with elemId := q.id } ∧ (m.elemId ≠ "" → m' = m)) ∧
    (∀ (i : Nat) (m : MsgElem) (q : Question) (m' : MsgElem),
      copilotStep i m = (some q, m') →
      q.id = (if m.elemId = "" then "copilot-user-" ++ toString i else m.elemId) ∧
      m' = { m with elemId := q.id } ∧ (m.elemId ≠ "" → m' = m)) ∧
    (∀ (i : Nat) (m : MsgElem) (q : Question) (m' : MsgElem),
      grokStep i m = (some q, m') →
      q.id = (if m.elemId = "" then "grok-user-" ++ toString i else m.elemId) ∧
      m' = { m with elemId := q.id } ∧ (m.elemId ≠ "" → m' = m)) ∧
    (∀ (i : Nat) (m : MsgElem) (q : Question) (m' : MsgElem),
      metaStep i m = (some q, m') →
      q.id = (if m.elemId = "" then "meta-user-" ++ toString i else m.elemId) ∧
      m' = { m with elemId := q.id } ∧ (m.elemId ≠ "" → m' = m)) ∧
    (∀ (i : Nat) (m : MsgElem) (q : Question) (m' : MsgElem),
      perplexityStep i m = (some q, m') →
      q.id = (if m.elemId = "" then "perplexity-query-" ++ toString i else m.elemId) ∧
      m' = { m with elemId := q.id } ∧ (m.elemId ≠ "" → m' = m)) ∧
    (∀ (i : Nat) (m : MsgElem) (q : Question) (m' : MsgElem),
      deepseekStep i m = (some q, m') →
      q.id = "deepseek-user-" ++ toString i ∧ m' = { m with elemId := q.id }) := by
  refine ⟨?_, ?_, ?_, ?_, ?_, ?_, ?_, ?_⟩
  · intro i m q m' h
    obtain ⟨raw, hraw, -, -, hid, hm'⟩ := chatgptStep_eq_some h
    refine ⟨hid, hm', fun hne => ?_⟩
    rw [hm', hid, if_neg hne]
  · intro i m q m' h
    obtain ⟨-, -, -, hid, hm'⟩ := claudeStep_eq_some h
    refine ⟨hid, hm', fun hne => ?_⟩
    rw [hm', hid, if_neg hne]
  · intro i m q m' h
    obtain ⟨-, -, -, hid, hm'⟩ := geminiStep_eq_some h
    refine ⟨hid, hm', fun hne => ?_⟩
    rw [hm', hid, if_neg hne]
  · intro i m q m' h
    obtain ⟨-, -, -, hid, hm'⟩ := copilotStep_eq_some h
    refine ⟨hid, hm', fun hne => ?_⟩
    rw [hm', hid, if_neg hne]
  · intro i m q m' h
    obtain ⟨-, -, -, hid, hm'⟩ := grokStep_eq_some h
    refine ⟨hid, hm', fun hne => ?_⟩
    rw [hm', hid, if_neg hne]
  · intro i m q m' h
    obtain ⟨-, -, -, hid, hm'⟩ := metaStep_eq_some h
    refine ⟨hid, hm', fun hne => ?_⟩
    rw [hm', hid, if_neg hne]
  · intro i m q m' h
    obtain ⟨-, -, -, hid, hm'⟩ := perplexityStep_eq_some h
    refine ⟨hid, hm', fun hne => ?_⟩
    rw [hm', hid, if_neg hne]
  · intro i m q m' h
    obtain ⟨raw, hraw, -, -, hid, hm'⟩ := deepseekStep_eq_some h
    exact ⟨hid, hm'⟩

/-- Witness for C5 amended: a ChatGPT element stamped `already-stamped`
keeps its id and is returned unchanged. -/
theorem claim_C5_amended_witness :
    ({ id := "already-stamped", text := "hello stamped world" } : Question).id =
      (if ("already-stamped" : String) = "" then "chatgpt-user-" ++ toString (0 : Nat) else "already-stamped") ∧
    ({ elemId := "already-stamped", inner := some "hello stamped world", ownText := "" } : MsgElem) =
      { ({ elemId := "already-stamped", inner := some "hello stamped world", ownText := "" } : MsgElem) with
        elemId := ({ id := "already-stamped", text := "hello stamped world" } : Question).id } ∧
    (("already-stamped" : String) ≠ "" →
      ({ elemId := "already-stamped", inner := some "hello stamped world", ownText := "" } : MsgElem) =
        { elemId := "already-stamped", inner := some "hello stamped world", ownText := "" }) :=
  claim_C5_amended.1 0
    { elemId := "already-stamped", inner := some "hello stamped world", ownText := "" }
    { id := "already-stamped", text := "hello stamped world" }
    { elemId := "already-stamped", inner := some "hello stamped world", ownText := "" }
    (by decide)

/-- C6 counterexample: with zero history entries and the page heading
reading exactly the brand name "ChatGPT", `ChatGPTParser.getChats`
still synthesizes the current-conversation entry — the claim requires
an empty sequence when the heading is merely the platform's own brand
name. -/
theorem claim_C6_counterexample :
    ChatGPTParser.getChats [] (some "ChatGPT") "loc" =
      [{ id := "current-chat", title := "ChatGPT", url := some "loc" }] ∧
    ChatGPTParser.getChats [] (some "ChatGPT") "loc" ≠ [] :=
  ⟨by decide, by decide⟩

/-- C6 amended: per-platform zero-history fallback behaviour.  ChatGPT
and Grok synthesize one entry from any heading with non-empty trimmed
text, with no brand-name check; Gemini, Copilot and Meta require the
untrimmed heading text not to contain their brand substrings; Claude
walks its heading candidates and takes the first whose trimmed text is
non-empty, differs from "Claude" and does not start with New/Untitled
(case-insensitive); Perplexity falls back to the search input's value,
not a heading; DeepSeek has no fallback and returns the empty
sequence.  In every case at most one entry is synthesized. -/
theorem claim_C6_amended :
    (∀ items t loc, chatgptHistoryChats items = [] → jsTrim t ≠ "" →
      ChatGPTParser.getChats items (some t) loc =
        [{ id := "current-chat", title := jsTrim t, url := some loc }]) ∧
    (∀ items t loc, chatgptHistoryChats items = [] → jsTrim t = "" →
      ChatGPTParser.getChats items (some t) loc = []) ∧
    (∀ items loc, chatgptHistoryChats items = [] →
      ChatGPTParser.getChats items none loc = []) ∧
    (∀ items t loc, grokHistoryChats items = [] → jsTrim t ≠ "" →
      GrokParser.getChats items (some t) loc =
        [{ id := "grok-current-chat", title := jsTrim t, url := some loc }]) ∧
    (∀ items loc, grokHistoryChats items = [] →
      GrokParser.getChats items none loc = []) ∧
    (∀ items t loc, geminiHistoryChats items = [] → jsTrim t ≠ "" →
      jsIncludes "Gemini" t = false →
      GeminiParser.getChats items (some t) loc =
        [{ id := "gemini-current-chat", title := jsTrim t, url := some loc }]) ∧
    (∀ items t loc, geminiHistoryChats items = [] → jsIncludes "Gemini" t = true →
      GeminiParser.getChats items (some t) loc = []) ∧
    (∀ items t loc, copilotHistoryChats items = [] → jsTrim t ≠ "" →
      jsIncludes "Copilot" t = false → jsIncludes "Bing" t = false →
      CopilotParser.getChats items (some t) loc =
        [{ id := "copilot-current-chat", title := jsTrim t, url := some loc }]) ∧
    (∀ items t loc, copilotHistoryChats items = [] →
      (jsIncludes "Copilot" t = true ∨ jsIncludes "Bing" t = true) →
      CopilotParser.getChats items (some t) loc = []) ∧
    (∀ items t loc, metaHistoryChats items = [] → jsTrim t ≠ "" →
      jsIncludes "Meta AI" t = false →
      MetaParser.getChats items (some t) loc =
        [{ id := "meta-current-chat", title := jsTrim t, url := some loc }]) ∧
    (∀ items t loc, metaHistoryChats items = [] → jsIncludes "Meta AI" t = true →
      MetaParser.getChats items (some t) loc = []) ∧
    (∀ items cands loc, claudeHistoryChats items = [] →
      ClaudeParser.getChats items cands loc = claudeFallbackChats loc cands) ∧
    (∀ loc, claudeFallbackChats loc [] = []) ∧
    (∀ loc rest, claudeFallbackChats loc (none :: rest) = claudeFallbackChats loc rest) ∧
    (∀ t loc rest, jsTrim t ≠ "" → jsTrim t ≠ "Claude" →
      ¬(ciStartsWith "new" (jsTrim t) ∨ ciStartsWith "untitled" (jsTrim t)) →
      claudeFallbackChats loc (some t :: rest) =
        [{ id := "claude-current-chat", title := truncatePreview 50 (jsTrim t),
           url := some loc }]) ∧
    (∀ t loc rest, ¬(jsTrim t ≠ "" ∧ jsTrim t ≠ "Claude" ∧
        ¬(ciStartsWith "new" (jsTrim t) ∨ ciStartsWith "untitled" (jsTrim t))) →
      claudeFallbackChats loc (some t :: rest) = claudeFallbackChats loc rest) ∧
    (∀ items v loc, perplexityHistoryChats items = [] → v ≠ "" →
      PerplexityParser.getChats items (some v) loc =
        [{ id := "perplexity-current-search", title := v, url := some loc }]) ∧
    (∀ items loc, perplexityHistoryChats items = [] →
      PerplexityParser.getChats items (some "") loc = []) ∧
    (∀ items loc, perplexityHistoryChats items = [] →
      PerplexityParser.getChats items none loc = []) ∧
    (DeepSeekParser.getChats [] = []) ∧
    (∀ items c, c ∈ DeepSeekParser.getChats items →
      ∃ p ∈ items.enum, deepseekChatStep p.1 p.2 = some c) := by
  refine ⟨?_, ?_, ?_, ?_, ?_, ?_, ?_, ?_, ?_, ?_, ?_, ?_, ?_, ?_, ?_, ?_, ?_, ?_, ?_,
    rfl, ?_⟩
  · intro items t loc he ht
    rw [chatgptGetChats_fallback he]
    dsimp only
    rw [if_pos ht]
  · intro items t loc he ht
    rw [chatgptGetChats_fallback he]
    dsimp only
    rw [if_neg (fun hcon => hcon ht)]
  · intro items loc he
    rw [chatgptGetChats_fallback he]
  · intro items t loc he ht
    rw [grokGetChats_fallback he]
    dsimp only
    rw [if_pos ht]
  · intro items loc he
    rw [grokGetChats_fallback he]
  · intro items t loc he ht hinc
    rw [geminiGetChats_fallback he]
    dsimp only
    rw [if_pos ⟨ht, hinc⟩]
  · intro items t loc he hinc
    rw [geminiGetChats_fallback he]
    dsimp only
    rw [if_neg (fun hcon => by simp [hcon.2] at hinc)]
  · intro items t loc he ht h1 h2
    rw [copilotGetChats_fallback he]
    dsimp only
    rw [if_pos ⟨ht, h1, h2⟩]
  · intro items t loc he hinc
    rw [copilotGetChats_fallback he]
    dsimp only
    refine if_neg (fun hcon => ?_)
    rcases hinc with h | h
    · simp [hcon.2.1] at h
    · simp [hcon.2.2] at h
  · intro items t loc he ht hinc
    rw [metaGetChats_fallback he]
    dsimp only
    rw [if_pos ⟨ht, hinc⟩]
  · intro items t loc he hinc
    rw [metaGetChats_fallback he]
    dsimp only
    rw [if_neg (fun hcon => by simp [hcon.2] at hinc)]
  · intro items cands loc he
    exact claudeGetChats_fallback he cands loc
  · intro loc
    exact claudeFallbackChats_nil loc
  · intro loc rest
    exact claudeFallbackChats_none loc rest
  · intro t loc rest ht h1 h2
    exact claudeFallbackChats_some_accept ht ⟨h1, h2⟩ loc rest
  · intro t loc rest hq
    exact claudeFallbackChats_some_skip hq loc rest
  · intro items v loc he hv
    rw [perplexityGetChats_fallback he]
    dsimp only
    rw [if_pos hv]
  · intro items loc he
    rw [perplexityGetChats_fallback he]
    dsimp only
    rw [if_neg (fun hcon => hcon rfl)]
  · intro items loc he
    rw [perplexityGetChats_fallback he]
  · intro items c h
    exact mem_enum_filterMap.mp h

/-- Witness for C6 amended: zero ChatGPT history entries and the heading
"Project Plan" yield exactly one synthesized current-conversation
entry. -/
theorem claim_C6_amended_witness :
    ChatGPTParser.getChats [] (some "Project Plan") "u" =
      [{ id := "current-chat", title := jsTrim "Project Plan", url := some "u" }] :=
  claim_C6_amended.1 [] "Project Plan" "u" rfl (by decide)

/-- C7 counterexample: the synthesized current-conversation Chat of
`ChatGPTParser.getChats` carries `url = window.location.href`, not an
absent url as the claim states. -/
theorem claim_C7_counterexample :
    ¬ (∀ c ∈ ChatGPTParser.getChats [] (some "My Project") "https://x/c/42",
        c.url = none) := by
  decide

/-- C7 amended: every Chat produced on a zero-history fallback path
carries the current page location as its `url` (the field is present,
equal to `window.location.href`), while history-scan Chats carry the
matched element's own href (which is the platform's navigation target
when the element exposes one, and absent otherwise). -/
theorem claim_C7_amended :
    (∀ items heading loc c, chatgptHistoryChats items = [] →
      c ∈ ChatGPTParser.getChats items heading loc → c.url = some loc) ∧
    (∀ loc cands c, c ∈ claudeFallbackChats loc cands → c.url = some loc) ∧
    (∀ items heading loc c, grokHistoryChats items = [] →
      c ∈ GrokParser.getChats items heading loc → c.url = some loc) ∧
    (∀ items heading loc c, geminiHistoryChats items = [] →
      c ∈ GeminiParser.getChats items heading loc → c.url = some loc) ∧
    (∀ items heading loc c, copilotHistoryChats items = [] →
      c ∈ CopilotParser.getChats items heading loc → c.url = some loc) ∧
    (∀ items heading loc c, metaHistoryChats items = [] →
      c ∈ MetaParser.getChats items heading loc → c.url = some loc) ∧
    (∀ items searchValue loc c, perplexityHistoryChats items = [] →
      c ∈ PerplexityParser.getChats items searchValue loc → c.url = some loc) ∧
    (∀ items c, c ∈ chatgptHistoryChats items → ∃ p ∈ items.enum, c.url = p.2.href) ∧
    (∀ items c, c ∈ claudeHistoryChats items → ∃ p ∈ items.enum, c.url = p.2.href) ∧
    (∀ items c, c ∈ DeepSeekParser.getChats items → ∃ p ∈ items.enum, c.url = p.2.href) := by
  refine ⟨?_, ?_, ?_, ?_, ?_, ?_, ?_, ?_, ?_, ?_⟩
  · intro items heading loc c he h
    rcases mem_chatgptGetChats h with hh | ⟨t, -, -, hc⟩
    · rw [he] at hh
      simp at hh
    · rw [hc]
  · intro loc cands c h
    obtain ⟨raw, -, -, -, hc⟩ := mem_claudeFallbackChats h
    rw [hc]
  · intro items heading loc c he h
    rcases mem_grokGetChats h with hh | ⟨t, -, -, hc⟩
    · rw [he] at hh
      simp at hh
    · rw [hc]
  · intro items heading loc c he h
    rcases mem_geminiGetChats h with hh | ⟨t, -, -, -, hc⟩
    · rw [he] at hh
      simp at hh
    · rw [hc]
  · intro items heading loc c he h
    rcases mem_copilotGetChats h with hh | ⟨t, -, -, -, -, hc⟩
    · rw [he] at hh
      simp at hh
    · rw [hc]
  · intro items heading loc c he h
    rcases mem_metaGetChats h with hh | ⟨t, -, -, -, hc⟩
    · rw [he] at hh
      simp at hh
    · rw [hc]
  · intro items searchValue loc c he h
    rcases mem_perplexityGetChats h with hh | ⟨v, -, -, hc⟩
    · rw [he] at hh
      simp at hh
    · rw [hc]
  · intro items c h
    obtain ⟨p, hp, hstep⟩ := mem_enum_filterMap.mp h
    obtain ⟨-, -, hurl⟩ := chatgptChatStep_eq_some hstep
    exact ⟨p, hp, hurl⟩
  · intro items c h
    obtain ⟨p, hp, hstep⟩ := mem_enum_filterMap.mp h
    obtain ⟨-, -, hurl⟩ := claudeChatStep_eq_some hstep
    exact ⟨p, hp, hurl⟩
  · intro items c h
    obtain ⟨p, hp, hstep⟩ := mem_enum_filterMap.mp h
    obtain ⟨raw, -, -, -, hurl, -⟩ := deepseekChatStep_eq_some hstep
    exact ⟨p, hp, hurl⟩

/-- Witness for C7 amended at the concrete synthesized ChatGPT entry. -/
theorem claim_C7_amended_witness :
    ({ id := "current-chat", title := "My Project", url := some "u" } : Chat).url =
      some "u" :=
  claim_C7_amended.1 [] (some "My Project") "u"
    { id := "current-chat", title := "My Project", url := some "u" } rfl (by decide)

end ChatNav
